import Mathlib

/-!
Shallow embedding of the T2-Auto-Short video editor core
(`src/models/base_layer.py`, `src/models/text_layer.py`,
`src/models/image_layer.py`, `src/models/box_layer.py`,
`src/core/timeline_manager.py`, `src/core/video_renderer.py`).

Modelling conventions:
* Python `float` and `int` data fields are modelled as exact rationals (`ℚ`).
* PIL images are modelled by their pixel dimensions: a loaded original image
  is `Option (ℕ × ℕ)` (None when nothing is loaded), the derived scaled image
  is `Option (ℤ × ℤ)`.
* The filesystem (`os.path.exists` + `Image.open`) is a parameter
  `Filesystem := String → Option (ℕ × ℕ)` mapping a path to the dimensions of
  the image stored there, or `none` when the path does not exist.
* Python mutates layer objects in place while `TimelineManager.layers` and
  locals alias the same objects.  Object identity is modelled by a
  model-internal field `oid : ℕ`; the manager carries a counter `next_oid`
  from which fresh identities are drawn.  `oid` does not correspond to any
  attribute of the source; it models the `id()` of the Python object.
* Python dynamic attribute values are modelled by the tagged union `PValue`
  (strings, numbers, booleans).  Attributes holding PIL/Tk objects
  (`original_image`, `scaled_image`, `photo_image`) exist in the attribute
  lists (for `hasattr` fidelity) but have no `PValue` representation, so
  `attr_set` is `none` for them; `setattr` with a value whose shape does not
  match the modelled field type is likewise unrepresentable and `attr_set`
  returns `none` there.
-/

attribute [local semireducible] Rat.add Rat.mul Rat.sub Rat.inv

/-- Python `int(x)` truncates toward zero. -/
def pyInt (q : ℚ) : ℤ := if q < 0 then ⌈q⌉ else ⌊q⌋

/-- Dynamic attribute values: Python strings, numbers (int and float collapsed
into `ℚ`) and booleans. -/
inductive PValue where
  | pstr (s : String)
  | pnum (q : ℚ)
  | pbool (b : Bool)
deriving DecidableEq, Repr

/-- Filesystem model: path to dimensions of the image stored at that path
(`none` when `os.path.exists` is false / the file cannot be opened). -/
def Filesystem := String → Option (ℕ × ℕ)

/-- Fields of `BaseLayer.__init__` (src/models/base_layer.py lines 12-22). -/
structure BaseFields where
  layer_id : String
  start_time : ℚ
  end_time : ℚ
  x : ℚ
  y : ℚ
  width : ℚ
  height : ℚ
  visible : Bool
  opacity : ℚ
  z_index : ℚ
deriving DecidableEq, Repr

/-- Extra fields of `TextLayer.__init__` (src/models/text_layer.py). -/
structure TextFields where
  text : String
  font_family : String
  font_size : ℚ
  font_color : String
  bg_color : String
  bg_opacity : ℚ
  border_color : String
  border_width : ℚ
  alignment : String
  bold : Bool
  italic : Bool
  underline : Bool
deriving DecidableEq, Repr

/-- Extra fields of `ImageLayer.__init__` (src/models/image_layer.py).
`aspect` stands for the source attribute `aspect_ratio`; `group_id` is the
attribute set dynamically by `TimelineManager.add_sequential_images`
(`none` models `hasattr(layer, "group_id") == False`).  The render-only
Tk handle `photo_image` carries no data and is not stored. -/
structure ImageFields where
  image_path : String
  original_image : Option (ℕ × ℕ)
  scaled_image : Option (ℤ × ℤ)
  aspect : ℚ
  fit_mode : String
  rotation : ℚ
  flip_horizontal : Bool
  flip_vertical : Bool
  brightness : ℚ
  contrast : ℚ
  saturation : ℚ
  group_id : Option String
deriving DecidableEq, Repr

/-- Extra fields of `BoxLayer.__init__` (src/models/box_layer.py). -/
structure BoxFields where
  fill_color : String
  fill_opacity : ℚ
  border_color : String
  border_width : ℚ
  border_style : String
  corner_radius : ℚ
  gradient : Bool
  gradient_color : String
  gradient_direction : String
deriving DecidableEq, Repr

/-- Variant payload of a layer. -/
inductive LayerKind where
  | text (tf : TextFields)
  | image (imf : ImageFields)
  | box (bf : BoxFields)
deriving DecidableEq, Repr

/-- A layer object: model-internal object identity `oid`, the `BaseLayer`
fields, and the variant payload. -/
structure Layer where
  oid : ℕ
  base : BaseFields
  kind : LayerKind
deriving DecidableEq, Repr

namespace Layer

/-- `BaseLayer.__init__` default common fields. -/
def baseDefaults (layer_id : String) (start_time end_time : ℚ) : BaseFields :=
  { layer_id := layer_id
    start_time := start_time
    end_time := end_time
    x := 100
    y := 100
    width := 200
    height := 100
    visible := true
    opacity := 1
    z_index := 0 }

/-- `BaseLayer.is_visible_at_time` (src/models/base_layer.py lines 44-46):
`self.visible and self.start_time <= time <= self.end_time`. -/
def is_visible_at_time (l : Layer) (time : ℚ) : Bool :=
  l.base.visible && decide (l.base.start_time ≤ time) && decide (time ≤ l.base.end_time)

/-- `BaseLayer.get_duration`. -/
def get_duration (l : Layer) : ℚ := l.base.end_time - l.base.start_time

/-- `BaseLayer.set_timing`. -/
def set_timing (l : Layer) (start_time end_time : ℚ) : Layer :=
  { l with base := { l.base with start_time := start_time, end_time := end_time } }

/-- `BaseLayer.set_position`. -/
def set_position (l : Layer) (x y : ℚ) : Layer :=
  { l with base := { l.base with x := x, y := y } }

/-- `BaseLayer.set_size`. -/
def set_size (l : Layer) (width height : ℚ) : Layer :=
  { l with base := { l.base with width := width, height := height } }

/-- Is this a Text layer (`isinstance(layer, TextLayer)`)? -/
def isText (l : Layer) : Bool := match l.kind with | .text _ => true | _ => false

/-- Is this an Image layer (`isinstance(layer, ImageLayer)`)? -/
def isImage (l : Layer) : Bool := match l.kind with | .image _ => true | _ => false

/-- Name of the variant, as `get_timeline_summary` would print it. -/
def kindName (l : Layer) : String :=
  match l.kind with
  | .text _ => "text"
  | .image _ => "image"
  | .box _ => "box"

/-- `getattr(layer, "group_id", None)`. -/
def groupId (l : Layer) : Option String :=
  match l.kind with
  | .image imf => imf.group_id
  | _ => none

end Layer

/-- Dimensions of the scaled image computed by
`ImageLayer._update_scaled_image` (src/models/image_layer.py lines 44-86),
as a function of the original image (dimensions), the current target width
and height, the fit mode, and the previous scaled image.  When no original
image is loaded, or the fit mode matches none of the five branches, the
method leaves `self.scaled_image` untouched, hence the `old` argument.
In the `cover` branch PIL's `crop((left, top, left+width, top+height))`
returns a region of exactly `(int-coerced right) - (int-coerced left)` by
`(int-coerced bottom) - (int-coerced top)` pixels, padding beyond the resized
image as needed; `(new_w - self.width) // 2` is Python floor division. -/
def computeScaledDims (orig : Option (ℕ × ℕ)) (width height : ℚ)
    (fit_mode : String) (old : Option (ℤ × ℤ)) : Option (ℤ × ℤ) :=
  match orig with
  | none => old
  | some (ow, oh) =>
    if fit_mode = "original" then
      some ((ow : ℤ), (oh : ℤ))
    else if fit_mode = "stretch" then
      some (pyInt width, pyInt height)
    else if fit_mode = "fit" then
      let scale := min (width / (ow : ℚ)) (height / (oh : ℚ))
      some (pyInt ((ow : ℚ) * scale), pyInt ((oh : ℚ) * scale))
    else if fit_mode = "fill" then
      let scale := max (width / (ow : ℚ)) (height / (oh : ℚ))
      some (pyInt ((ow : ℚ) * scale), pyInt ((oh : ℚ) * scale))
    else if fit_mode = "cover" then
      let scale := max (width / (ow : ℚ)) (height / (oh : ℚ))
      let new_w := pyInt ((ow : ℚ) * scale)
      let new_h := pyInt ((oh : ℚ) * scale)
      let left := ⌊((new_w : ℚ) - width) / 2⌋
      let top := ⌊((new_h : ℚ) - height) / 2⌋
      some (pyInt ((left : ℚ) + width) - left, pyInt ((top : ℚ) + height) - top)
    else
      old

namespace Layer

/-- `ImageLayer._update_scaled_image` as a state transformer on the layer:
recompute `scaled_image` from the original image, the current size and the
fit mode.  Layers of other variants have no such method; the transformer is
the identity there (never reached from the embedded code). -/
def update_scaled (l : Layer) : Layer :=
  match l.kind with
  | .image imf =>
    let sc := computeScaledDims imf.original_image l.base.width l.base.height
      imf.fit_mode imf.scaled_image
    { l with kind := .image ({ imf with scaled_image := sc }) }
  | _ => l

/-- `ImageLayer.load_image` (src/models/image_layer.py lines 32-42): record
the path, read the image dimensions, set `aspect_ratio = width / height` and
recompute the scaled image.  When opening fails (`fs path = none`) the
`except` branch returns after `self.image_path` was already assigned. -/
def load_image (fs : Filesystem) (l : Layer) (path : String) : Layer :=
  match l.kind with
  | .image imf =>
    match fs path with
    | some (ow, oh) =>
      let l' := { l with kind := .image ({ imf with
          image_path := path
          original_image := some (ow, oh)
          aspect := (ow : ℚ) / (oh : ℚ) }) }
      update_scaled l'
    | none => { l with kind := .image ({ imf with image_path := path }) }
  | _ => l

/-- `TextLayer.__init__` defaults. -/
def textDefaults (text : String) : TextFields :=
  { text := text
    font_family := "Arial"
    font_size := 24
    font_color := "#FFFFFF"
    bg_color := "#000000"
    bg_opacity := 0
    border_color := "#000000"
    border_width := 0
    alignment := "center"
    bold := false
    italic := false
    underline := false }

/-- `ImageLayer.__init__` field defaults (before the conditional
`load_image`). -/
def imageDefaults (image_path : String) : ImageFields :=
  { image_path := image_path
    original_image := none
    scaled_image := none
    aspect := 1
    fit_mode := "cover"
    rotation := 0
    flip_horizontal := false
    flip_vertical := false
    brightness := 1
    contrast := 1
    saturation := 1
    group_id := none }

/-- `BoxLayer.__init__` field defaults. -/
def boxDefaults : BoxFields :=
  { fill_color := "#FF0000"
    fill_opacity := 1/2
    border_color := "#000000"
    border_width := 2
    border_style := "solid"
    corner_radius := 0
    gradient := false
    gradient_color := "#00FF00"
    gradient_direction := "horizontal" }

/-- `TextLayer(layer_id, text, start_time, end_time)`. -/
def mkText (oid : ℕ) (layer_id text : String) (start_time end_time : ℚ) : Layer :=
  { oid := oid, base := baseDefaults layer_id start_time end_time
    kind := .text (textDefaults text) }

/-- `ImageLayer(layer_id, image_path, start_time, end_time)`: defaults, then
`if image_path and os.path.exists(image_path): self.load_image(image_path)`
(the empty string is falsy). -/
def mkImage (fs : Filesystem) (oid : ℕ) (layer_id image_path : String)
    (start_time end_time : ℚ) : Layer :=
  let l : Layer :=
    { oid := oid, base := baseDefaults layer_id start_time end_time
      kind := .image (imageDefaults image_path) }
  if image_path ≠ "" ∧ (fs image_path).isSome then load_image fs l image_path else l

/-- `BoxLayer(layer_id, start_time, end_time)`. -/
def mkBox (oid : ℕ) (layer_id : String) (start_time end_time : ℚ) : Layer :=
  { oid := oid, base := baseDefaults layer_id start_time end_time
    kind := .box boxDefaults }

end Layer

/-! ### Dynamic attribute access

`set_property` in all three variants is
`if hasattr(self, name): setattr(self, name, value); ...; return True`
`else: return False`.  Python's `hasattr` holds for the instance attributes
assigned in `__init__` (the `attrNames` lists below) and equally for the
class attributes: the methods of the class and its bases, including the
`@abstractmethod`s, and the `abc` machinery's `_abc_impl` slot (the
`methodNames` lists below).  `setattr` with a method's name shadows the
method with an instance attribute and `set_property` returns `True`; such a
store has no representation among the modelled fields, so the modelled state
is unchanged.  `hasattr` is finally also true for the object-protocol dunder
attributes (`__init__`, `__class__`, `__dict__`, ...); `setattr` on those is
heterogeneous (`__class__`, `__dict__` and `__weakref__` raise, the rest
shadow), so names of the form `__...` are left outside the modelled name
domain, and the theorems about unrecognized names assume the name does not
begin with `__`.  `attr_set`/`attr_get` cover the attributes whose values
are representable as `PValue`; the PIL/Tk-object attributes
(`original_image`, `scaled_image`, `photo_image`) are recognized names but
carry no `PValue`. -/

/-- Instance attributes from `BaseLayer.__init__`. -/
def baseAttrNames : List String :=
  ["layer_id", "start_time", "end_time", "x", "y", "width", "height",
   "visible", "opacity", "z_index"]

/-- Instance attributes from `TextLayer.__init__` (beyond the base). -/
def textAttrNames : List String :=
  ["text", "font_family", "font_size", "font_color", "bg_color", "bg_opacity",
   "border_color", "border_width", "alignment", "bold", "italic", "underline"]

/-- Instance attributes from `ImageLayer.__init__` (beyond the base). -/
def imageAttrNames : List String :=
  ["image_path", "original_image", "scaled_image", "photo_image",
   "aspect_ratio", "fit_mode", "rotation", "flip_horizontal", "flip_vertical",
   "brightness", "contrast", "saturation"]

/-- Instance attributes from `BoxLayer.__init__` (beyond the base). -/
def boxAttrNames : List String :=
  ["fill_color", "fill_opacity", "border_color", "border_width",
   "border_style", "corner_radius", "gradient", "gradient_color",
   "gradient_direction"]

/-- Class attributes of `BaseLayer` that `hasattr` sees on every instance:
the methods of src/models/base_layer.py lines 24-65 (the four
`@abstractmethod`s are class attributes all the same) and the `_abc_impl`
slot that deriving from `ABC` installs on the class. -/
def baseMethodNames : List String :=
  ["get_properties", "set_property", "render_preview", "export_data",
   "is_visible_at_time", "get_duration", "set_timing", "set_position",
   "set_size", "_abc_impl"]

/-- Methods `TextLayer` defines beyond the base-class overrides. -/
def textMethodNames : List String := ["_hex_to_rgb"]

/-- Methods `ImageLayer` defines beyond the base-class overrides. -/
def imageMethodNames : List String :=
  ["load_image", "_update_scaled_image", "render_preview_with_opacity"]

/-- Methods `BoxLayer` defines beyond the base-class overrides. -/
def boxMethodNames : List String :=
  ["_draw_rounded_rectangle", "_draw_gradient", "_hex_to_rgb"]

/-- A name of the shape of Python's object-protocol dunder attributes: two
leading underscores.  These names are outside the modelled attribute domain
(see the section comment below). -/
def isDunderName (name : String) : Bool := name.data.take 2 = ['_', '_']

namespace Layer

/-- The instance-attribute names of the layer object (`hasattr` holds for
these together with `methodNames`).  `group_id` exists only after
`add_sequential_images` has set it. -/
def attrNames (l : Layer) : List String :=
  baseAttrNames ++
    match l.kind with
    | .text _ => textAttrNames
    | .image imf => imageAttrNames ++ (if imf.group_id.isSome then ["group_id"] else [])
    | .box _ => boxAttrNames

/-- The method (class-attribute) names `hasattr` sees on the layer object:
`hasattr(self, name)` holds exactly for `attrNames ++ methodNames` among the
non-dunder names (see the section comment for the dunder scoping). -/
def methodNames (l : Layer) : List String :=
  baseMethodNames ++
    match l.kind with
    | .text _ => textMethodNames
    | .image _ => imageMethodNames
    | .box _ => boxMethodNames

/-- `getattr` restricted to `PValue`-representable attributes. -/
def attr_get (l : Layer) (name : String) : Option PValue :=
  match name with
  | "layer_id" => some (.pstr l.base.layer_id)
  | "start_time" => some (.pnum l.base.start_time)
  | "end_time" => some (.pnum l.base.end_time)
  | "x" => some (.pnum l.base.x)
  | "y" => some (.pnum l.base.y)
  | "width" => some (.pnum l.base.width)
  | "height" => some (.pnum l.base.height)
  | "visible" => some (.pbool l.base.visible)
  | "opacity" => some (.pnum l.base.opacity)
  | "z_index" => some (.pnum l.base.z_index)
  | _ =>
    match l.kind with
    | .text tf =>
      match name with
      | "text" => some (.pstr tf.text)
      | "font_family" => some (.pstr tf.font_family)
      | "font_size" => some (.pnum tf.font_size)
      | "font_color" => some (.pstr tf.font_color)
      | "bg_color" => some (.pstr tf.bg_color)
      | "bg_opacity" => some (.pnum tf.bg_opacity)
      | "border_color" => some (.pstr tf.border_color)
      | "border_width" => some (.pnum tf.border_width)
      | "alignment" => some (.pstr tf.alignment)
      | "bold" => some (.pbool tf.bold)
      | "italic" => some (.pbool tf.italic)
      | "underline" => some (.pbool tf.underline)
      | _ => none
    | .image imf =>
      match name with
      | "image_path" => some (.pstr imf.image_path)
      | "aspect_ratio" => some (.pnum imf.aspect)
      | "fit_mode" => some (.pstr imf.fit_mode)
      | "rotation" => some (.pnum imf.rotation)
      | "flip_horizontal" => some (.pbool imf.flip_horizontal)
      | "flip_vertical" => some (.pbool imf.flip_vertical)
      | "brightness" => some (.pnum imf.brightness)
      | "contrast" => some (.pnum imf.contrast)
      | "saturation" => some (.pnum imf.saturation)
      | "group_id" => imf.group_id.map .pstr
      | _ => none
    | .box bf =>
      match name with
      | "fill_color" => some (.pstr bf.fill_color)
      | "fill_opacity" => some (.pnum bf.fill_opacity)
      | "border_color" => some (.pstr bf.border_color)
      | "border_width" => some (.pnum bf.border_width)
      | "border_style" => some (.pstr bf.border_style)
      | "corner_radius" => some (.pnum bf.corner_radius)
      | "gradient" => some (.pbool bf.gradient)
      | "gradient_color" => some (.pstr bf.gradient_color)
      | "gradient_direction" => some (.pstr bf.gradient_direction)
      | _ => none

/-- `setattr` on the base fields, for shape-compatible values. -/
def baseAttrSet (b : BaseFields) (name : String) (v : PValue) : Option BaseFields :=
  if name = "layer_id" then
    (match v with | .pstr s => some { b with layer_id := s } | _ => none)
  else if name = "start_time" then
    (match v with | .pnum q => some { b with start_time := q } | _ => none)
  else if name = "end_time" then
    (match v with | .pnum q => some { b with end_time := q } | _ => none)
  else if name = "x" then
    (match v with | .pnum q => some { b with x := q } | _ => none)
  else if name = "y" then
    (match v with | .pnum q => some { b with y := q } | _ => none)
  else if name = "width" then
    (match v with | .pnum q => some { b with width := q } | _ => none)
  else if name = "height" then
    (match v with | .pnum q => some { b with height := q } | _ => none)
  else if name = "visible" then
    (match v with | .pbool bv => some { b with visible := bv } | _ => none)
  else if name = "opacity" then
    (match v with | .pnum q => some { b with opacity := q } | _ => none)
  else if name = "z_index" then
    (match v with | .pnum q => some { b with z_index := q } | _ => none)
  else none

/-- `setattr` on the text fields, for shape-compatible values. -/
def textAttrSet (tf : TextFields) (name : String) (v : PValue) : Option TextFields :=
  if name = "text" then
    (match v with | .pstr s => some { tf with text := s } | _ => none)
  else if name = "font_family" then
    (match v with | .pstr s => some { tf with font_family := s } | _ => none)
  else if name = "font_size" then
    (match v with | .pnum q => some { tf with font_size := q } | _ => none)
  else if name = "font_color" then
    (match v with | .pstr s => some { tf with font_color := s } | _ => none)
  else if name = "bg_color" then
    (match v with | .pstr s => some { tf with bg_color := s } | _ => none)
  else if name = "bg_opacity" then
    (match v with | .pnum q => some { tf with bg_opacity := q } | _ => none)
  else if name = "border_color" then
    (match v with | .pstr s => some { tf with border_color := s } | _ => none)
  else if name = "border_width" then
    (match v with | .pnum q => some { tf with border_width := q } | _ => none)
  else if name = "alignment" then
    (match v with | .pstr s => some { tf with alignment := s } | _ => none)
  else if name = "bold" then
    (match v with | .pbool bv => some { tf with bold := bv } | _ => none)
  else if name = "italic" then
    (match v with | .pbool bv => some { tf with italic := bv } | _ => none)
  else if name = "underline" then
    (match v with | .pbool bv => some { tf with underline := bv } | _ => none)
  else none

/-- `setattr` on the image fields, for shape-compatible values.  `group_id`
is settable only when the attribute already exists (`hasattr`); the three
object-valued attributes have no `PValue` shape. -/
def imageAttrSet (imf : ImageFields) (name : String) (v : PValue) : Option ImageFields :=
  if name = "image_path" then
    (match v with | .pstr s => some { imf with image_path := s } | _ => none)
  else if name = "aspect_ratio" then
    (match v with | .pnum q => some { imf with aspect := q } | _ => none)
  else if name = "fit_mode" then
    (match v with | .pstr s => some { imf with fit_mode := s } | _ => none)
  else if name = "rotation" then
    (match v with | .pnum q => some { imf with rotation := q } | _ => none)
  else if name = "flip_horizontal" then
    (match v with | .pbool bv => some { imf with flip_horizontal := bv } | _ => none)
  else if name = "flip_vertical" then
    (match v with | .pbool bv => some { imf with flip_vertical := bv } | _ => none)
  else if name = "brightness" then
    (match v with | .pnum q => some { imf with brightness := q } | _ => none)
  else if name = "contrast" then
    (match v with | .pnum q => some { imf with contrast := q } | _ => none)
  else if name = "saturation" then
    (match v with | .pnum q => some { imf with saturation := q } | _ => none)
  else if name = "group_id" then
    (match v with
     | .pstr s => if imf.group_id.isSome then some { imf with group_id := some s } else none
     | _ => none)
  else none

/-- `setattr` on the box fields, for shape-compatible values. -/
def boxAttrSet (bf : BoxFields) (name : String) (v : PValue) : Option BoxFields :=
  if name = "fill_color" then
    (match v with | .pstr s => some { bf with fill_color := s } | _ => none)
  else if name = "fill_opacity" then
    (match v with | .pnum q => some { bf with fill_opacity := q } | _ => none)
  else if name = "border_color" then
    (match v with | .pstr s => some { bf with border_color := s } | _ => none)
  else if name = "border_width" then
    (match v with | .pnum q => some { bf with border_width := q } | _ => none)
  else if name = "border_style" then
    (match v with | .pstr s => some { bf with border_style := s } | _ => none)
  else if name = "corner_radius" then
    (match v with | .pnum q => some { bf with corner_radius := q } | _ => none)
  else if name = "gradient" then
    (match v with | .pbool bv => some { bf with gradient := bv } | _ => none)
  else if name = "gradient_color" then
    (match v with | .pstr s => some { bf with gradient_color := s } | _ => none)
  else if name = "gradient_direction" then
    (match v with | .pstr s => some { bf with gradient_direction := s } | _ => none)
  else none

/-- `setattr(layer, name, value)` for shape-compatible `PValue`s (`none` when
the attribute does not exist or its value is not `PValue`-representable). -/
def attr_set (l : Layer) (name : String) (v : PValue) : Option Layer :=
  match baseAttrSet l.base name v with
  | some b => some { l with base := b }
  | none =>
    match l.kind with
    | .text tf => (textAttrSet tf name v).map fun tf' => { l with kind := .text tf' }
    | .image imf => (imageAttrSet imf name v).map fun imf' => { l with kind := .image imf' }
    | .box bf => (boxAttrSet bf name v).map fun bf' => { l with kind := .box bf' }

/-- `set_property` of all three variants
(src/models/text_layer.py lines 53-58, src/models/image_layer.py lines
109-116, src/models/box_layer.py lines 46-51): if `hasattr` holds — the name
is an instance attribute or a method name — the attribute is assigned and
`True` is returned, else `False`; the Image variant additionally recomputes
the scaled image when `width`, `height` or `fit_mode` was set.  A recognized
name whose store is unrepresentable among the modelled fields (a PIL/Tk
attribute, a shape-mismatched value, or a method being shadowed) returns
`True` with the modelled state unchanged (see the section comment). -/
def set_property (l : Layer) (name : String) (v : PValue) : Layer × Bool :=
  if name ∈ l.attrNames ∨ name ∈ l.methodNames then
    match attr_set l name v with
    | some l' =>
      if l.isImage ∧ (name = "width" ∨ name = "height" ∨ name = "fit_mode") then
        (update_scaled l', true)
      else (l', true)
    | none => (l, true)
  else (l, false)

end Layer

/-! ### Export snapshots -/

/-- The keys common to all three `export_data` dictionaries. -/
structure CommonData where
  layer_id : String
  x : ℚ
  y : ℚ
  width : ℚ
  height : ℚ
  start_time : ℚ
  end_time : ℚ
  opacity : ℚ
  visible : Bool
deriving DecidableEq, Repr

/-- The image-specific keys of `ImageLayer.export_data` (note: `group_id`,
`original_image`, `scaled_image`, `aspect_ratio` and `z_index` are NOT
exported). -/
structure ImageData where
  image_path : String
  fit_mode : String
  rotation : ℚ
  flip_horizontal : Bool
  flip_vertical : Bool
  brightness : ℚ
  contrast : ℚ
  saturation : ℚ
deriving DecidableEq, Repr

/-- One element of the exported `layers` list, tagged by its `type` key. -/
inductive LayerData where
  | text (c : CommonData) (tf : TextFields)
  | image (c : CommonData) (d : ImageData)
  | box (c : CommonData) (bf : BoxFields)
deriving DecidableEq, Repr

namespace Layer

/-- The common part of `export_data`. -/
def exportCommon (l : Layer) : CommonData :=
  { layer_id := l.base.layer_id
    x := l.base.x
    y := l.base.y
    width := l.base.width
    height := l.base.height
    start_time := l.base.start_time
    end_time := l.base.end_time
    opacity := l.base.opacity
    visible := l.base.visible }

/-- `export_data` of the three variants (src/models/text_layer.py lines
99-124, src/models/image_layer.py lines 240-261, src/models/box_layer.py
lines 123-145). -/
def export_data (l : Layer) : LayerData :=
  match l.kind with
  | .text tf => .text l.exportCommon tf
  | .image imf => .image l.exportCommon
      { image_path := imf.image_path
        fit_mode := imf.fit_mode
        rotation := imf.rotation
        flip_horizontal := imf.flip_horizontal
        flip_vertical := imf.flip_vertical
        brightness := imf.brightness
        contrast := imf.contrast
        saturation := imf.saturation }
  | .box bf => .box l.exportCommon bf

/-- Base fields of a layer rebuilt by `import_timeline_data`: the variant
constructor is called with the `layer_id` only, then every exported key that
the fresh object has is assigned (`z_index` is not exported, so it keeps the
default 0). -/
def importBase (c : CommonData) : BaseFields :=
  { layer_id := c.layer_id
    start_time := c.start_time
    end_time := c.end_time
    x := c.x
    y := c.y
    width := c.width
    height := c.height
    visible := c.visible
    opacity := c.opacity
    z_index := 0 }

/-- One layer rebuilt by `import_timeline_data` (src/core/timeline_manager.py
lines 257-273).  For an image, `ImageLayer(layer_data["layer_id"])` is built
with an empty path, so no image is loaded (`original_image` stays None,
`aspect_ratio` stays 1, `scaled_image` stays None) and `group_id` never comes
back (`hasattr` is false for it on the fresh object, and the key is not in
the snapshot anyway). -/
def importData (oid : ℕ) : LayerData → Layer
  | .text c tf => { oid := oid, base := importBase c, kind := .text tf }
  | .image c d =>
    { oid := oid, base := importBase c
      kind := .image
        { image_path := d.image_path
          original_image := none
          scaled_image := none
          aspect := 1
          fit_mode := d.fit_mode
          rotation := d.rotation
          flip_horizontal := d.flip_horizontal
          flip_vertical := d.flip_vertical
          brightness := d.brightness
          contrast := d.contrast
          saturation := d.saturation
          group_id := none } }
  | .box c bf => { oid := oid, base := importBase c, kind := .box bf }

end Layer

/-- The `image_transition` dictionary (`{"type": ..., "duration": ...}`);
`tname` stands for the `"type"` key. -/
structure Transition where
  tname : String
  duration : ℚ
deriving DecidableEq, Repr

/-- The dictionary produced by `export_timeline_data`. -/
structure TimelineData where
  total_duration : ℚ
  fps : ℚ
  current_time : ℚ
  image_transition : Transition
  layers : List LayerData
deriving DecidableEq, Repr

/-! ### The timeline manager -/

/-- `TimelineManager.__init__` state (src/core/timeline_manager.py lines
16-23).  `selected_layer` holds the object identity of the selected layer;
`next_oid` is the model-internal fresh-identity counter. -/
structure TimelineManager where
  layers : List Layer
  current_time : ℚ
  total_duration : ℚ
  fps : ℚ
  selected_layer : Option ℕ
  image_transition : Transition
  next_oid : ℕ
deriving DecidableEq, Repr

/-- Stable insertion of a layer into a list sorted by `z_index`: skip
past the elements with strictly smaller key, stop at the first element whose
key is not smaller. -/
def insertByZ (a : Layer) : List Layer → List Layer
  | [] => [a]
  | b :: rest =>
    if b.base.z_index < a.base.z_index then b :: insertByZ a rest else a :: b :: rest

/-- `self.layers.sort(key=lambda layer: layer.z_index)`: Python's sort is a
stable sort by key, modelled by a stable insertion sort (any two stable
sorts by the same key agree). -/
def sortByZ : List Layer → List Layer
  | [] => []
  | a :: rest => insertByZ a (sortByZ rest)

/-- First layer with the given object identity. -/
def findOid (ls : List Layer) (o : ℕ) : Option Layer :=
  ls.find? fun l => l.oid == o

/-- Apply `f` to the layer object with identity `o` (pointwise on the list;
with distinct identities this is mutation of one object). -/
def updateOid (o : ℕ) (f : Layer → Layer) (ls : List Layer) : List Layer :=
  ls.map fun l => if l.oid == o then f l else l

namespace TimelineManager

/-- `TimelineManager()` initial state. -/
def init : TimelineManager :=
  { layers := []
    current_time := 0
    total_duration := 10
    fps := 30
    selected_layer := none
    image_transition := { tname := "none", duration := 1/2 }
    next_oid := 0 }

/-- `add_layer` (lines 25-33): append, then sort by z-index.  The
`try`/`except` cannot fire on the modelled operations, so the `True` return
is constant and dropped. -/
def add_layer (t : TimelineManager) (l : Layer) : TimelineManager :=
  { t with layers := sortByZ (t.layers ++ [l]) }

/-- `remove_layer` (lines 35-44): drop every layer with the id, and clear the
selection when the selected object carries that id. -/
def remove_layer (t : TimelineManager) (layer_id : String) : TimelineManager :=
  let layers' := t.layers.filter fun l => l.base.layer_id ≠ layer_id
  let sel :=
    match t.selected_layer.bind (findOid t.layers) with
    | some sl => if sl.base.layer_id = layer_id then none else t.selected_layer
    | none => t.selected_layer
  { t with layers := layers', selected_layer := sel }

/-- `get_layer` (lines 46-51): first layer with the id. -/
def get_layer (t : TimelineManager) (layer_id : String) : Option Layer :=
  t.layers.find? fun l => l.base.layer_id == layer_id

/-- `set_total_duration` (lines 73-75): clamp below by 1.0. -/
def set_total_duration (t : TimelineManager) (duration : ℚ) : TimelineManager :=
  { t with total_duration := max 1 duration }

/-- `set_current_time` (lines 65-67): clamp into `[0, total_duration]`. -/
def set_current_time (t : TimelineManager) (time : ℚ) : TimelineManager :=
  { t with current_time := max 0 (min time t.total_duration) }

/-- `create_text_layer` (lines 119-125): id `text_{len+1}`, z-index `len`,
append.  Returns the new object's identity alongside the state. -/
def create_text_layer (t : TimelineManager) (text : String)
    (start_time end_time : ℚ) : TimelineManager × ℕ :=
  let lid := "text_" ++ toString (t.layers.length + 1)
  let l := Layer.mkText t.next_oid lid text start_time end_time
  let l := { l with base := { l.base with z_index := (t.layers.length : ℚ) } }
  (add_layer { t with next_oid := t.next_oid + 1 } l, t.next_oid)

/-- `create_image_layer` (lines 127-133): id `image_{len+1}`, z-index `len`,
append. -/
def create_image_layer (fs : Filesystem) (t : TimelineManager)
    (image_path : String) (start_time end_time : ℚ) : TimelineManager × ℕ :=
  let lid := "image_" ++ toString (t.layers.length + 1)
  let l := Layer.mkImage fs t.next_oid lid image_path start_time end_time
  let l := { l with base := { l.base with z_index := (t.layers.length : ℚ) } }
  (add_layer { t with next_oid := t.next_oid + 1 } l, t.next_oid)

/-- `create_box_layer` (lines 135-141): id `box_{len+1}`, z-index `len`,
append. -/
def create_box_layer (t : TimelineManager)
    (start_time end_time : ℚ) : TimelineManager × ℕ :=
  let lid := "box_" ++ toString (t.layers.length + 1)
  let l := Layer.mkBox t.next_oid lid start_time end_time
  let l := { l with base := { l.base with z_index := (t.layers.length : ℚ) } }
  (add_layer { t with next_oid := t.next_oid + 1 } l, t.next_oid)

end TimelineManager

/-- The `latest_end` computation of `add_sequential_images` (lines 156-161):
`latest_end = 0.0`, then `max` over the `end_time` of every non-Text layer. -/
def latest_end_nontext (ls : List Layer) : ℚ :=
  ls.foldl (fun acc l => if l.isText then acc else max acc l.base.end_time) 0

/-- `setattr(layer, "group_id", group_id)` on a created image layer. -/
def setGroup (gid : String) (l : Layer) : Layer :=
  match l.kind with
  | .image imf => { l with kind := .image ({ imf with group_id := some gid }) }
  | _ => l

/-- The body of the copy loop of `add_sequential_images` (lines 188-203):
copy position, size, `fit_mode`, `rotation` and the flips from the first
created layer, then recompute the scaled image.  `base` is the first created
layer, which the loop never mutates, so reading it once is faithful; since
`base` is an image the `getattr` defaults are never consulted. -/
def copyFrom (base : Layer) (l : Layer) : Layer :=
  let l1 := Layer.set_position l base.base.x base.base.y
  let l2 := Layer.set_size l1 base.base.width base.base.height
  match l2.kind, base.kind with
  | .image imf, .image bi =>
    let imf' : ImageFields :=
      { imf with fit_mode := bi.fit_mode
                 rotation := bi.rotation
                 flip_horizontal := bi.flip_horizontal
                 flip_vertical := bi.flip_vertical }
    Layer.update_scaled { l2 with kind := .image imf' }
  | _, _ => l2

namespace TimelineManager

/-- The creation loop of `add_sequential_images` (lines 175-185): for each
path, create an image layer at `current_start + idx * duration`, mark its
`group_id`, and apply `set_position`/`set_size` (after defaulting, the
position and size arguments are never `None`, so both calls always run).
Returns the created object identities in order. -/
def addSeqLoop (fs : Filesystem) (gid : String) (x y w h dur cs : ℚ) :
    List String → ℕ → TimelineManager → TimelineManager × List ℕ
  | [], _, t => (t, [])
  | path :: rest, idx, t =>
    let start_time := cs + (idx : ℚ) * dur
    let end_time := start_time + dur
    let (t1, o) := create_image_layer fs t path start_time end_time
    let ls2 := updateOid o
      (fun l => Layer.set_size (Layer.set_position (setGroup gid l) x y) w h) t1.layers
    let t2 := { t1 with layers := ls2 }
    let (t3, os) := addSeqLoop fs gid x y w h dur cs rest (idx + 1) t2
    (t3, o :: os)

/-- The inherit step of `add_sequential_images` (lines 187-203): when more
than one layer was created, copy display attributes from the first created
layer to the rest. -/
def copyStep (t : TimelineManager) (os : List ℕ) : TimelineManager :=
  match os with
  | [] => t
  | o0 :: restOs =>
    if restOs.isEmpty then t
    else
      match findOid t.layers o0 with
      | some base =>
        { t with layers := restOs.foldl (fun acc o => updateOid o (copyFrom base) acc) t.layers }
      | none => t

/-- `add_sequential_images` (src/core/timeline_manager.py lines 143-215).
`hex` models `uuid.uuid4().hex[:8]`; the created layers are returned as a
list of object identities (the Python return value aliases the objects now
stored in the timeline). -/
def add_sequential_images (fs : Filesystem) (hex : String) (t : TimelineManager)
    (image_paths : List String) (duration_per_image : ℚ)
    (x? y? w? h? : Option ℚ) : TimelineManager × List ℕ :=
  let current_start : ℚ := if t.layers.isEmpty then 0 else latest_end_nontext t.layers
  let gid := "imggrp_" ++ hex
  let x := x?.getD 0
  let y := y?.getD 120
  let w := w?.getD 720
  let h := h?.getD 1050
  let (t1, os) := addSeqLoop fs gid x y w h duration_per_image current_start image_paths 0 t
  let t2 := copyStep t1 os
  match os.getLast? with
  | none => (t2, os)
  | some lastO =>
    let lastEnd :=
      match findOid t2.layers lastO with
      | some l => l.base.end_time
      | none => 0
    let t3 := t2.set_total_duration (max t2.total_duration lastEnd)
    let t4 := { t3 with layers := t3.layers.map fun l =>
        if l.isText then { l with base := { l.base with end_time := t3.total_duration } } else l }
    (t4, os)

/-- The allow-list of `apply_property_to_group` (line 223); the source uses a
set literal, order is immaterial. -/
def sync_props : List String :=
  ["x", "y", "width", "height", "fit_mode", "rotation", "flip_horizontal", "flip_vertical"]

/-- One iteration of the `apply_property_to_group` loop (lines 226-237): an
Image layer whose `group_id` equals the target and which is not the excluded
originator gets the attribute assigned (images always `hasattr` the
allow-listed names) and, for `width`/`height`/`fit_mode`, its scaled image
recomputed.  `if include_selected_id and ...` makes `None` and the empty
string skip the exclusion (Python truthiness). -/
def groupUpdateLayer (gid : String) (name : String) (v : PValue)
    (excl : Option String) : Layer → Layer
  | ⟨o, b, .image imf⟩ =>
    if imf.group_id = some gid then
      if (match excl with
          | some e => decide (e ≠ "") && (b.layer_id == e)
          | none => false) then ⟨o, b, .image imf⟩
      else
        match Layer.attr_set ⟨o, b, .image imf⟩ name v with
        | some l' =>
          if name = "width" ∨ name = "height" ∨ name = "fit_mode" then
            Layer.update_scaled l'
          else l'
        | none => ⟨o, b, .image imf⟩
    else ⟨o, b, .image imf⟩
  | l => l

/-- `apply_property_to_group` (lines 217-237): silent no-op for names outside
the allow-list; otherwise update every matching image layer in place. -/
def apply_property_to_group (t : TimelineManager) (group_id : String)
    (property_name : String) (v : PValue)
    (include_selected_id : Option String) : TimelineManager :=
  if property_name ∈ sync_props then
    { t with layers := t.layers.map (groupUpdateLayer group_id property_name v include_selected_id) }
  else t

/-- `export_timeline_data` (lines 239-247). -/
def export_timeline_data (t : TimelineManager) : TimelineData :=
  { total_duration := t.total_duration
    fps := t.fps
    current_time := t.current_time
    image_transition := t.image_transition
    layers := t.layers.map Layer.export_data }

/-- The rebuild loop of `import_timeline_data`: one fresh layer object per
snapshot entry, appended in order. -/
def importLayers (oid : ℕ) : List LayerData → List Layer
  | [] => []
  | ld :: rest => Layer.importData oid ld :: importLayers (oid + 1) rest

/-- `import_timeline_data` (lines 249-279): restore `total_duration`, `fps`
and `current_time`, clear the layer list, rebuild each layer from its
snapshot entry, and sort by z-index.  The snapshot's `image_transition` key
is never read, and the selection is never touched.  On a typed snapshot the
`except` branch and the unknown-`type` `continue` are unreachable, so the
`True` return is constant and dropped. -/
def import_timeline_data (t : TimelineManager) (data : TimelineData) : TimelineManager :=
  { t with
    total_duration := data.total_duration
    fps := data.fps
    current_time := data.current_time
    layers := sortByZ (importLayers t.next_oid data.layers)
    next_oid := t.next_oid + data.layers.length }

/-- The layer objects returned (as aliases) by `add_sequential_images`,
retrieved from the timeline by object identity. -/
def created_layers (t : TimelineManager) (os : List ℕ) : List Layer :=
  os.filterMap (findOid t.layers)

end TimelineManager

/-- Well-formed manager states: distinct object identities, all below the
fresh counter.  Every state reachable from `TimelineManager.init` satisfies
this; it is the model-level counterpart of Python objects being distinct. -/
def TimelineManager.WF (t : TimelineManager) : Prop :=
  (t.layers.map Layer.oid).Nodup ∧ ∀ l ∈ t.layers, l.oid < t.next_oid

instance (t : TimelineManager) : Decidable t.WF := by
  unfold TimelineManager.WF
  exact instDecidableAnd

/-! ### The video renderer -/

/-- The mutable state of `VideoRenderer.__init__` (src/core/video_renderer.py
lines 20-25); the static color table is omitted. -/
structure VideoRenderer where
  is_rendering : Bool
  render_progress : ℚ
  render_status : String
  output_path : String
  temp_dir : String
deriving DecidableEq, Repr

/-- `VideoRenderer()` initial state. -/
def VideoRenderer.init : VideoRenderer :=
  { is_rendering := false
    render_progress := 0
    render_status := ""
    output_path := ""
    temp_dir := "" }

/-- The synchronous prefix of `VideoRenderer.render_video` (lines 37-73): the
`is_rendering` guard rejects immediately, touching nothing; otherwise the
flag, progress, output path and a fresh temporary directory (`mkdtemp`,
passed in as `fresh_temp`) are set and the worker thread is spawned (the
asynchronous thread body is not modelled; the other arguments only flow into
that thread). -/
def VideoRenderer.render_video (r : VideoRenderer) (output_path : String)
    (fresh_temp : String) : VideoRenderer × Bool :=
  if r.is_rendering then (r, false)
  else
    ({ r with is_rendering := true
              render_progress := 0
              output_path := output_path
              temp_dir := fresh_temp }, true)

/-- Fixture filesystem on which no path exists (`os.path.exists` is false
everywhere); used to instantiate theorems at concrete inputs. -/
def fsNone : Filesystem := fun _ => none

/-- Shape compatibility of a value with an allow-listed attribute: the
modelled field types of the eight `sync_props` names (numbers for geometry
and rotation, a string for the fit mode, booleans for the flips).  Python
would store a value of any type; only shape-compatible stores are
representable in the typed model (see the module conventions). -/
def syncCompat (name : String) (v : PValue) : Bool :=
  match name, v with
  | "x", .pnum _ => true
  | "y", .pnum _ => true
  | "width", .pnum _ => true
  | "height", .pnum _ => true
  | "fit_mode", .pstr _ => true
  | "rotation", .pnum _ => true
  | "flip_horizontal", .pbool _ => true
  | "flip_vertical", .pbool _ => true
  | _, _ => false


/-- Fixture: the initial timeline after one `create_text_layer("hi", 0, 5)`
call (a single pre-existing Text layer). -/
def seqT0 : TimelineManager := (TimelineManager.init.create_text_layer "hi" 0 5).1

/-- The single layer of `seqT0`, spelled out. -/
def seqL0 : Layer := { Layer.mkText 0 "text_1" "hi" 0 5 with base := { (Layer.mkText 0 "text_1" "hi" 0 5).base with z_index := 0 } }

/-- Fixture: the initial timeline after one `create_box_layer(-2, -1)` call:
a non-empty timeline whose only layer is a non-Text layer ending at `-1`. -/
def cexT : TimelineManager := (TimelineManager.init.create_box_layer (-2) (-1)).1

/-- `add_sequential_images` with a single path on `cexT`. -/
def cexRes : TimelineManager × List ℕ :=
  TimelineManager.add_sequential_images fsNone "deadbeef" cexT ["p"] 3 none none none none

/-- `add_sequential_images` with three paths and duration 3 on the initial
(empty) timeline. -/
def seq3Res : TimelineManager × List ℕ :=
  TimelineManager.add_sequential_images fsNone "abcd1234" TimelineManager.init
    ["p1", "p2", "p3"] 3 none none none none

/-! ## Helper lemmas -/

/-- Python `int` of an integer-valued rational is that integer. -/
theorem pyInt_intCast (z : ℤ) : pyInt ((z : ℚ)) = z := by
  unfold pyInt
  split
  · exact Int.ceil_intCast z
  · exact Int.floor_intCast z

/-- Python `int` of a nonnegative rational bounded by an integer is bounded
by that integer. -/
theorem pyInt_le_intCast {q : ℚ} {z : ℤ} (h0 : 0 ≤ q) (hq : q ≤ (z : ℚ)) :
    pyInt q ≤ z := by
  unfold pyInt
  rw [if_neg (not_lt.2 h0)]
  calc ⌊q⌋ ≤ ⌊(z : ℚ)⌋ := Int.floor_le_floor hq
    _ = z := Int.floor_intCast z

/-! ## Claim theorems -/

/-- C1: for every layer `L` and time `t`, `is_visible_at_time(L, t)` returns
true iff `L.visible` is true and `L.start_time <= t <= L.end_time`, both
endpoints inclusive. -/
theorem is_visible_at_time_spec (l : Layer) (time : ℚ) :
    l.is_visible_at_time time = true ↔
      l.base.visible = true ∧ l.base.start_time ≤ time ∧ time ≤ l.base.end_time := by
  simp [Layer.is_visible_at_time, and_assoc]

/-- C2: for a loaded original image of dimensions `(ow, oh)` and integer
target `(w, h)`, the scaled image computed by `_update_scaled_image` has
dimensions exactly `(w, h)` in `cover` mode, dimensions bounded by `(w, h)`
in `fit` mode, and dimensions exactly `(w, h)` in `stretch` mode. -/
theorem scaled_image_bounds (ow oh : ℕ) (w h : ℤ) (old : Option (ℤ × ℤ))
    (how : 0 < ow) (hoh : 0 < oh) (hw : 0 < w) (hh : 0 < h) :
    computeScaledDims (some (ow, oh)) ((w : ℚ)) ((h : ℚ)) "cover" old = some (w, h)
    ∧ (∃ sw sh, computeScaledDims (some (ow, oh)) ((w : ℚ)) ((h : ℚ)) "fit" old = some (sw, sh)
        ∧ sw ≤ w ∧ sh ≤ h)
    ∧ computeScaledDims (some (ow, oh)) ((w : ℚ)) ((h : ℚ)) "stretch" old = some (w, h) := by
  have howQ : (0 : ℚ) < (ow : ℚ) := by exact_mod_cast how
  have hohQ : (0 : ℚ) < (oh : ℚ) := by exact_mod_cast hoh
  have hwQ : (0 : ℚ) ≤ (w : ℚ) := by exact_mod_cast hw.le
  have hhQ : (0 : ℚ) ≤ (h : ℚ) := by exact_mod_cast hh.le
  have hsc : (0 : ℚ) ≤ min ((w : ℚ) / (ow : ℚ)) ((h : ℚ) / (oh : ℚ)) :=
    le_min (div_nonneg hwQ howQ.le) (div_nonneg hhQ hohQ.le)
  refine ⟨?_, ?_, ?_⟩
  · simp only [computeScaledDims, String.reduceEq, reduceIte]
    have key : ∀ (a z : ℤ), pyInt ((a : ℚ) + (z : ℚ)) - a = z := by
      intro a z
      have hz : ((a : ℚ) + (z : ℚ)) = (((a + z : ℤ)) : ℚ) := by push_cast; ring
      rw [hz, pyInt_intCast]
      ring
    rw [key, key]
  · refine ⟨pyInt ((ow : ℚ) * min ((w : ℚ) / (ow : ℚ)) ((h : ℚ) / (oh : ℚ))),
      pyInt ((oh : ℚ) * min ((w : ℚ) / (ow : ℚ)) ((h : ℚ) / (oh : ℚ))), ?_, ?_, ?_⟩
    · simp only [computeScaledDims, String.reduceEq, reduceIte]
    · refine pyInt_le_intCast (mul_nonneg howQ.le hsc) ?_
      calc (ow : ℚ) * min ((w : ℚ) / (ow : ℚ)) ((h : ℚ) / (oh : ℚ))
          ≤ (ow : ℚ) * ((w : ℚ) / (ow : ℚ)) :=
            mul_le_mul_of_nonneg_left (min_le_left _ _) howQ.le
        _ = (w : ℚ) := mul_div_cancel₀ _ howQ.ne'
    · refine pyInt_le_intCast (mul_nonneg hohQ.le hsc) ?_
      calc (oh : ℚ) * min ((w : ℚ) / (ow : ℚ)) ((h : ℚ) / (oh : ℚ))
          ≤ (oh : ℚ) * ((h : ℚ) / (oh : ℚ)) :=
            mul_le_mul_of_nonneg_left (min_le_right _ _) hohQ.le
        _ = (h : ℚ) := mul_div_cancel₀ _ hohQ.ne'
  · simp only [computeScaledDims, String.reduceEq, reduceIte]
    rw [pyInt_intCast, pyInt_intCast]

/-- Witness for C2 at a 400x300 original and a 720x1050 target. -/
theorem scaled_image_bounds_witness :
    computeScaledDims (some (400, 300)) (((720 : ℤ) : ℚ)) (((1050 : ℤ) : ℚ)) "cover" none
        = some (720, 1050)
    ∧ (∃ sw sh, computeScaledDims (some (400, 300)) (((720 : ℤ) : ℚ)) (((1050 : ℤ) : ℚ)) "fit" none
          = some (sw, sh) ∧ sw ≤ 720 ∧ sh ≤ 1050)
    ∧ computeScaledDims (some (400, 300)) (((720 : ℤ) : ℚ)) (((1050 : ℤ) : ℚ)) "stretch" none
        = some (720, 1050) :=
  scaled_image_bounds 400 300 720 1050 none (by decide) (by decide) (by decide) (by decide)

/-- C7 (code bug): layer ids are derived from the current layer count, so a
creation after a removal reuses a live id.  Create an image layer
(`image_1`) and a text layer (`text_2`), remove `image_1`, create another
text layer: the new layer is also named `text_2`, so two simultaneously
present layers share an id, violating the uniqueness invariant. -/
theorem duplicate_layer_id_after_remove :
    (let t1 := (TimelineManager.create_image_layer fsNone TimelineManager.init "a" 0 5).1
     let t2 := (t1.create_text_layer "hello" 0 5).1
     let t3 := t2.remove_layer "image_1"
     let t4 := (t3.create_text_layer "world" 0 5).1
     t4.layers.map (fun l => l.base.layer_id) = ["text_2", "text_2"]
       ∧ ¬ (t4.layers.map (fun l => l.base.layer_id)).Nodup) := by
  decide

/-- C9: calling `render_video` while `is_rendering` is true returns `False`
immediately and leaves the renderer state (progress, status, output path,
temporary directory and the flag itself) untouched. -/
theorem render_video_rejects_while_rendering (r : VideoRenderer)
    (out tmp : String) (h : r.is_rendering = true) :
    r.render_video out tmp = (r, false) := by
  simp [VideoRenderer.render_video, h]

/-- Witness for C9 on a renderer with an in-progress render. -/
theorem render_video_rejects_while_rendering_witness :
    VideoRenderer.render_video { VideoRenderer.init with is_rendering := true }
        "output.mp4" "/tmp/video_editor_x" =
      ({ VideoRenderer.init with is_rendering := true }, false) :=
  render_video_rejects_while_rendering _ "output.mp4" "/tmp/video_editor_x" rfl

/-- C10: `import_timeline_data` never reads the snapshot's `image_transition`
(the configuration is unchanged by any import), even though
`export_timeline_data` writes the current configuration into the snapshot. -/
theorem import_keeps_image_transition (t : TimelineManager) (d : TimelineData) :
    (t.import_timeline_data d).image_transition = t.image_transition
    ∧ (t.export_timeline_data).image_transition = t.image_transition :=
  ⟨rfl, rfl⟩

/-- Rebuilt layers keep the default z-index 0 (`z_index` is not exported). -/
theorem importData_z_zero (o : ℕ) (ld : LayerData) :
    (Layer.importData o ld).base.z_index = 0 := by
  cases ld <;> rfl

/-- Every layer produced by the import rebuild loop has z-index 0. -/
theorem importLayers_z_zero : ∀ (lds : List LayerData) (o : ℕ),
    ∀ l ∈ TimelineManager.importLayers o lds, l.base.z_index = 0 := by
  intro lds
  induction lds with
  | nil => intro o l hl; cases hl
  | cons ld rest ih =>
    intro o l hl
    rcases List.mem_cons.mp hl with h | h
    · rw [h]
      exact importData_z_zero o ld
    · exact ih (o + 1) l h

/-- Inserting a layer of z-index 0 in front of a layer of z-index 0 keeps it
in front; hence a stable sort of an all-zero-z list is the identity. -/
theorem sortByZ_of_all_zero : ∀ ls : List Layer,
    (∀ l ∈ ls, l.base.z_index = 0) → sortByZ ls = ls := by
  intro ls
  induction ls with
  | nil => intro _; rfl
  | cons a rest ih =>
    intro hz
    have ha : a.base.z_index = 0 := hz a (List.mem_cons_self a rest)
    have hrest := ih fun l hl => hz l (List.mem_cons_of_mem a hl)
    show insertByZ a (sortByZ rest) = a :: rest
    rw [hrest]
    cases rest with
    | nil => rfl
    | cons b rest' =>
      have hb : b.base.z_index = 0 := hz b (List.mem_cons_of_mem a (List.mem_cons_self b rest'))
      show (if b.base.z_index < a.base.z_index then b :: insertByZ a rest' else a :: b :: rest') = _
      rw [ha, hb, if_neg (lt_irrefl 0)]

/-- Re-exporting a rebuilt layer gives back its snapshot entry. -/
theorem export_importData (o : ℕ) (l : Layer) :
    (Layer.importData o l.export_data).export_data = l.export_data := by
  cases l with
  | mk o' b k => cases k <;> rfl

/-- A rebuilt layer has the variant of its snapshot entry. -/
theorem kindName_importData (o : ℕ) (l : Layer) :
    (Layer.importData o l.export_data).kindName = l.kindName := by
  cases l with
  | mk o' b k => cases k <;> rfl

/-- The rebuild loop preserves length. -/
theorem importLayers_length : ∀ (lds : List LayerData) (o : ℕ),
    (TimelineManager.importLayers o lds).length = lds.length := by
  intro lds
  induction lds with
  | nil => intro o; rfl
  | cons ld rest ih =>
    intro o
    show (TimelineManager.importLayers o (ld :: rest)).length = rest.length + 1
    simp [TimelineManager.importLayers, ih (o + 1)]

/-- Re-exporting the rebuilt layer list gives back the exported list. -/
theorem importLayers_export : ∀ (ls : List Layer) (o : ℕ),
    (TimelineManager.importLayers o (ls.map Layer.export_data)).map Layer.export_data
      = ls.map Layer.export_data := by
  intro ls
  induction ls with
  | nil => intro o; rfl
  | cons l rest ih =>
    intro o
    simp [TimelineManager.importLayers, export_importData, ih (o + 1)]

/-- The rebuilt layer list has the variants of the original list. -/
theorem importLayers_kinds : ∀ (ls : List Layer) (o : ℕ),
    (TimelineManager.importLayers o (ls.map Layer.export_data)).map Layer.kindName
      = ls.map Layer.kindName := by
  intro ls
  induction ls with
  | nil => intro o; rfl
  | cons l rest ih =>
    intro o
    simp [TimelineManager.importLayers, kindName_importData, ih (o + 1)]

/-- C6: importing the result of `export_timeline_data` yields an equivalent
timeline: the same number of layers, the same variant for each, and every
exported attribute value reproduced (re-exporting gives the identical
snapshot). -/
theorem export_import_roundtrip (t : TimelineManager) :
    (t.import_timeline_data t.export_timeline_data).layers.length = t.layers.length
    ∧ (t.import_timeline_data t.export_timeline_data).layers.map Layer.kindName
        = t.layers.map Layer.kindName
    ∧ (t.import_timeline_data t.export_timeline_data).export_timeline_data
        = t.export_timeline_data := by
  have hz : sortByZ (TimelineManager.importLayers t.next_oid (t.layers.map Layer.export_data))
      = TimelineManager.importLayers t.next_oid (t.layers.map Layer.export_data) :=
    sortByZ_of_all_zero _ (importLayers_z_zero _ _)
  refine ⟨?_, ?_, ?_⟩
  · show (sortByZ (TimelineManager.importLayers t.next_oid (t.layers.map Layer.export_data))).length
        = t.layers.length
    rw [hz, importLayers_length]
    exact List.length_map _ _
  · show (sortByZ (TimelineManager.importLayers t.next_oid (t.layers.map Layer.export_data))).map
        Layer.kindName = t.layers.map Layer.kindName
    rw [hz, importLayers_kinds]
  · have h2 : (t.import_timeline_data t.export_timeline_data).layers.map Layer.export_data
        = t.layers.map Layer.export_data := by
      show (sortByZ (TimelineManager.importLayers t.next_oid
          (t.layers.map Layer.export_data))).map Layer.export_data
        = t.layers.map Layer.export_data
      rw [hz, importLayers_export]
    simp only [TimelineManager.export_timeline_data, TimelineData.mk.injEq]
    exact ⟨rfl, rfl, rfl, rfl, h2⟩

/-- Recomputing the scaled image changes no `PValue`-readable attribute
(`attr_get` never reads `scaled_image`). -/
theorem attr_get_update_scaled (l : Layer) (name : String) :
    Layer.attr_get (Layer.update_scaled l) name = Layer.attr_get l name := by
  cases l with
  | mk o b k => cases k <;> rfl

/-- Recomputing the scaled image keeps the object identity. -/
theorem update_scaled_oid (l : Layer) : (Layer.update_scaled l).oid = l.oid := by
  cases l with
  | mk o b k => cases k <;> rfl

/-- Recomputing the scaled image keeps the base fields. -/
theorem update_scaled_base (l : Layer) : (Layer.update_scaled l).base = l.base := by
  cases l with
  | mk o b k => cases k <;> rfl

set_option maxHeartbeats 4000000

/-- One pass of the group-apply loop, characterized: a targeted member (an
Image layer in the group, other than the excluded originator) gets the named
attribute set to the value, keeping its identity; any other layer is left
untouched. -/
theorem groupUpdateLayer_spec (gid e name : String) (v : PValue) (he : e ≠ "")
    (hname : name ∈ TimelineManager.sync_props) (hv : syncCompat name v = true)
    (l : Layer) :
    ((l.isImage = true ∧ l.groupId = some gid ∧ l.base.layer_id ≠ e) →
        Layer.attr_get (TimelineManager.groupUpdateLayer gid name v (some e) l) name = some v
        ∧ (TimelineManager.groupUpdateLayer gid name v (some e) l).oid = l.oid
        ∧ (TimelineManager.groupUpdateLayer gid name v (some e) l).base.layer_id
            = l.base.layer_id)
    ∧ (¬(l.isImage = true ∧ l.groupId = some gid ∧ l.base.layer_id ≠ e) →
        TimelineManager.groupUpdateLayer gid name v (some e) l = l) := by
  simp only [TimelineManager.sync_props, List.mem_cons, List.not_mem_nil, or_false] at hname
  cases l with
  | mk o b k =>
    constructor
    · rintro ⟨him, hgr, hne⟩
      cases k with
      | text tf => simp [Layer.isImage] at him
      | box bf => simp [Layer.isImage] at him
      | image imf =>
        simp only [Layer.groupId] at hgr
        have hexcl : (decide (e ≠ "") && (b.layer_id == e)) = false := by
          simp [hne]
        rcases hname with rfl | rfl | rfl | rfl | rfl | rfl | rfl | rfl <;>
          cases v <;>
          first
          | exact Bool.noConfusion hv
          | (refine ⟨?_, ?_, ?_⟩ <;>
            simp only [TimelineManager.groupUpdateLayer, hgr, if_pos, hexcl,
              Bool.false_eq_true, if_false, Layer.attr_set, Layer.baseAttrSet,
              Layer.imageAttrSet] <;>
            simp [Layer.update_scaled, update_scaled_oid, update_scaled_base,
              Layer.attr_get])
    · intro hn
      cases k with
      | text tf => rfl
      | box bf => rfl
      | image imf =>
        simp only [Layer.isImage, Layer.groupId, true_and, not_and, not_not] at hn
        by_cases hg : imf.group_id = some gid
        · have hid : b.layer_id = e := hn hg
          have hexcl : (decide (e ≠ "") && (b.layer_id == e)) = true := by
            simp [he, hid]
          simp only [TimelineManager.groupUpdateLayer, hg, if_pos, hexcl, if_true]
        · show (if imf.group_id = some gid then _ else _) = _
          rw [if_neg hg]

set_option maxHeartbeats 200000

/-- C5: `apply_property_to_group` with an allow-listed name sets that
attribute on every Image layer of the group except the excluded originator
and leaves every other layer untouched; with a name outside the allow-list
it is a silent no-op on the whole timeline. -/
theorem apply_property_to_group_spec (t : TimelineManager) (gid e name : String)
    (v : PValue) (he : e ≠ "") :
    (name ∉ TimelineManager.sync_props →
        t.apply_property_to_group gid name v (some e) = t)
    ∧ (name ∈ TimelineManager.sync_props → syncCompat name v = true →
        List.Forall₂ (fun l l' =>
          ((l.isImage = true ∧ l.groupId = some gid ∧ l.base.layer_id ≠ e) →
              Layer.attr_get l' name = some v ∧ l'.oid = l.oid
              ∧ l'.base.layer_id = l.base.layer_id)
          ∧ (¬(l.isImage = true ∧ l.groupId = some gid ∧ l.base.layer_id ≠ e) → l' = l))
          t.layers (t.apply_property_to_group gid name v (some e)).layers) := by
  constructor
  · intro h
    simp [TimelineManager.apply_property_to_group, h]
  · intro hname hv
    have hlayers : (t.apply_property_to_group gid name v (some e)).layers
        = t.layers.map (TimelineManager.groupUpdateLayer gid name v (some e)) := by
      simp [TimelineManager.apply_property_to_group, hname]
    rw [hlayers, List.forall₂_map_right_iff]
    rw [List.forall₂_same]
    intro l _
    exact groupUpdateLayer_spec gid e name v he hname hv l

/-- Witness for C5 on a one-image group: the disallowed name `text` is a
no-op, and `width` is pushed to the group member. -/
theorem apply_property_to_group_spec_witness :
    (("text" : String) ∉ TimelineManager.sync_props →
        TimelineManager.apply_property_to_group
          (TimelineManager.add_sequential_images fsNone "abcd1234" TimelineManager.init
            ["p1"] 3 none none none none).1
          "imggrp_abcd1234" "text" (.pstr "x") (some "zzz")
        = (TimelineManager.add_sequential_images fsNone "abcd1234" TimelineManager.init
            ["p1"] 3 none none none none).1)
    ∧ (("text" : String) ∈ TimelineManager.sync_props →
        syncCompat "text" (.pstr "x") = true →
        List.Forall₂ (fun l l' =>
          ((l.isImage = true ∧ l.groupId = some "imggrp_abcd1234"
              ∧ l.base.layer_id ≠ "zzz") →
              Layer.attr_get l' "text" = some (.pstr "x") ∧ l'.oid = l.oid
              ∧ l'.base.layer_id = l.base.layer_id)
          ∧ (¬(l.isImage = true ∧ l.groupId = some "imggrp_abcd1234"
              ∧ l.base.layer_id ≠ "zzz") → l' = l))
          (TimelineManager.add_sequential_images fsNone "abcd1234" TimelineManager.init
            ["p1"] 3 none none none none).1.layers
          (TimelineManager.apply_property_to_group
            (TimelineManager.add_sequential_images fsNone "abcd1234" TimelineManager.init
              ["p1"] 3 none none none none).1
            "imggrp_abcd1234" "text" (.pstr "x") (some "zzz")).layers) :=
  apply_property_to_group_spec _ "imggrp_abcd1234" "zzz" "text" (.pstr "x") (by decide)

set_option maxHeartbeats 4000000

/-- Setting an attribute stores the value where `getattr` reads it back. -/
theorem attr_get_attr_set (l l' : Layer) (name : String) (v : PValue)
    (h : Layer.attr_set l name v = some l') :
    Layer.attr_get l' name = some v := by
  cases l with
  | mk o b k =>
    unfold Layer.attr_set at h
    cases hb : Layer.baseAttrSet b name v with
    | some b2 =>
      rw [hb] at h
      simp only [Option.some.injEq] at h
      subst h
      by_cases h1 : name = "layer_id"
      · subst h1
        cases v <;> simp [Layer.baseAttrSet] at hb <;> subst hb <;>
          simp [Layer.attr_get]
      ·
        by_cases h2 : name = "start_time"
        · subst h2
          cases v <;> simp [Layer.baseAttrSet] at hb <;> subst hb <;>
            simp [Layer.attr_get]
        ·
          by_cases h3 : name = "end_time"
          · subst h3
            cases v <;> simp [Layer.baseAttrSet] at hb <;> subst hb <;>
              simp [Layer.attr_get]
          ·
            by_cases h4 : name = "x"
            · subst h4
              cases v <;> simp [Layer.baseAttrSet] at hb <;> subst hb <;>
                simp [Layer.attr_get]
            ·
              by_cases h5 : name = "y"
              · subst h5
                cases v <;> simp [Layer.baseAttrSet] at hb <;> subst hb <;>
                  simp [Layer.attr_get]
              ·
                by_cases h6 : name = "width"
                · subst h6
                  cases v <;> simp [Layer.baseAttrSet] at hb <;> subst hb <;>
                    simp [Layer.attr_get]
                ·
                  by_cases h7 : name = "height"
                  · subst h7
                    cases v <;> simp [Layer.baseAttrSet] at hb <;> subst hb <;>
                      simp [Layer.attr_get]
                  ·
                    by_cases h8 : name = "visible"
                    · subst h8
                      cases v <;> simp [Layer.baseAttrSet] at hb <;> subst hb <;>
                        simp [Layer.attr_get]
                    ·
                      by_cases h9 : name = "opacity"
                      · subst h9
                        cases v <;> simp [Layer.baseAttrSet] at hb <;> subst hb <;>
                          simp [Layer.attr_get]
                      ·
                        by_cases h10 : name = "z_index"
                        · subst h10
                          cases v <;> simp [Layer.baseAttrSet] at hb <;> subst hb <;>
                            simp [Layer.attr_get]
                        · simp [Layer.baseAttrSet, h1, h2, h3, h4, h5, h6, h7, h8, h9, h10] at hb
    | none =>
      rw [hb] at h
      cases k with
      | text tf =>
        simp only at h
        cases ht : Layer.textAttrSet tf name v with
        | none => rw [ht] at h; simp at h
        | some tf2 =>
          rw [ht] at h
          simp only [Option.map_some', Option.some.injEq] at h
          subst h
          by_cases h1 : name = "text"
          · subst h1
            cases v <;> simp [Layer.textAttrSet] at ht <;> subst ht <;>
              simp [Layer.attr_get]
          ·
            by_cases h2 : name = "font_family"
            · subst h2
              cases v <;> simp [Layer.textAttrSet] at ht <;> subst ht <;>
                simp [Layer.attr_get]
            ·
              by_cases h3 : name = "font_size"
              · subst h3
                cases v <;> simp [Layer.textAttrSet] at ht <;> subst ht <;>
                  simp [Layer.attr_get]
              ·
                by_cases h4 : name = "font_color"
                · subst h4
                  cases v <;> simp [Layer.textAttrSet] at ht <;> subst ht <;>
                    simp [Layer.attr_get]
                ·
                  by_cases h5 : name = "bg_color"
                  · subst h5
                    cases v <;> simp [Layer.textAttrSet] at ht <;> subst ht <;>
                      simp [Layer.attr_get]
                  ·
                    by_cases h6 : name = "bg_opacity"
                    · subst h6
                      cases v <;> simp [Layer.textAttrSet] at ht <;> subst ht <;>
                        simp [Layer.attr_get]
                    ·
                      by_cases h7 : name = "border_color"
                      · subst h7
                        cases v <;> simp [Layer.textAttrSet] at ht <;> subst ht <;>
                          simp [Layer.attr_get]
                      ·
                        by_cases h8 : name = "border_width"
                        · subst h8
                          cases v <;> simp [Layer.textAttrSet] at ht <;> subst ht <;>
                            simp [Layer.attr_get]
                        ·
                          by_cases h9 : name = "alignment"
                          · subst h9
                            cases v <;> simp [Layer.textAttrSet] at ht <;> subst ht <;>
                              simp [Layer.attr_get]
                          ·
                            by_cases h10 : name = "bold"
                            · subst h10
                              cases v <;> simp [Layer.textAttrSet] at ht <;> subst ht <;>
                                simp [Layer.attr_get]
                            ·
                              by_cases h11 : name = "italic"
                              · subst h11
                                cases v <;> simp [Layer.textAttrSet] at ht <;> subst ht <;>
                                  simp [Layer.attr_get]
                              ·
                                by_cases h12 : name = "underline"
                                · subst h12
                                  cases v <;> simp [Layer.textAttrSet] at ht <;> subst ht <;>
                                    simp [Layer.attr_get]
                                · simp [Layer.textAttrSet, h1, h2, h3, h4, h5, h6, h7, h8, h9, h10, h11, h12] at ht
      | image imf =>
        simp only at h
        cases ht : Layer.imageAttrSet imf name v with
        | none => rw [ht] at h; simp at h
        | some imf2 =>
          rw [ht] at h
          simp only [Option.map_some', Option.some.injEq] at h
          subst h
          by_cases h1 : name = "image_path"
          · subst h1
            cases v <;> simp [Layer.imageAttrSet] at ht <;> subst ht <;>
              simp [Layer.attr_get]
          ·
            by_cases h2 : name = "aspect_ratio"
            · subst h2
              cases v <;> simp [Layer.imageAttrSet] at ht <;> subst ht <;>
                simp [Layer.attr_get]
            ·
              by_cases h3 : name = "fit_mode"
              · subst h3
                cases v <;> simp [Layer.imageAttrSet] at ht <;> subst ht <;>
                  simp [Layer.attr_get]
              ·
                by_cases h4 : name = "rotation"
                · subst h4
                  cases v <;> simp [Layer.imageAttrSet] at ht <;> subst ht <;>
                    simp [Layer.attr_get]
                ·
                  by_cases h5 : name = "flip_horizontal"
                  · subst h5
                    cases v <;> simp [Layer.imageAttrSet] at ht <;> subst ht <;>
                      simp [Layer.attr_get]
                  ·
                    by_cases h6 : name = "flip_vertical"
                    · subst h6
                      cases v <;> simp [Layer.imageAttrSet] at ht <;> subst ht <;>
                        simp [Layer.attr_get]
                    ·
                      by_cases h7 : name = "brightness"
                      · subst h7
                        cases v <;> simp [Layer.imageAttrSet] at ht <;> subst ht <;>
                          simp [Layer.attr_get]
                      ·
                        by_cases h8 : name = "contrast"
                        · subst h8
                          cases v <;> simp [Layer.imageAttrSet] at ht <;> subst ht <;>
                            simp [Layer.attr_get]
                        ·
                          by_cases h9 : name = "saturation"
                          · subst h9
                            cases v <;> simp [Layer.imageAttrSet] at ht <;> subst ht <;>
                              simp [Layer.attr_get]
                          ·
                            by_cases h10 : name = "group_id"
                            · subst h10
                              cases v <;> simp [Layer.imageAttrSet] at ht
                              obtain ⟨hg, ht2⟩ := ht
                              subst ht2
                              simp [Layer.attr_get]
                            · simp [Layer.imageAttrSet, h1, h2, h3, h4, h5, h6, h7, h8, h9, h10] at ht
      | box bf =>
        simp only at h
        cases ht : Layer.boxAttrSet bf name v with
        | none => rw [ht] at h; simp at h
        | some bf2 =>
          rw [ht] at h
          simp only [Option.map_some', Option.some.injEq] at h
          subst h
          by_cases h1 : name = "fill_color"
          · subst h1
            cases v <;> simp [Layer.boxAttrSet] at ht <;> subst ht <;>
              simp [Layer.attr_get]
          ·
            by_cases h2 : name = "fill_opacity"
            · subst h2
              cases v <;> simp [Layer.boxAttrSet] at ht <;> subst ht <;>
                simp [Layer.attr_get]
            ·
              by_cases h3 : name = "border_color"
              · subst h3
                cases v <;> simp [Layer.boxAttrSet] at ht <;> subst ht <;>
                  simp [Layer.attr_get]
              ·
                by_cases h4 : name = "border_width"
                · subst h4
                  cases v <;> simp [Layer.boxAttrSet] at ht <;> subst ht <;>
                    simp [Layer.attr_get]
                ·
                  by_cases h5 : name = "border_style"
                  · subst h5
                    cases v <;> simp [Layer.boxAttrSet] at ht <;> subst ht <;>
                      simp [Layer.attr_get]
                  ·
                    by_cases h6 : name = "corner_radius"
                    · subst h6
                      cases v <;> simp [Layer.boxAttrSet] at ht <;> subst ht <;>
                        simp [Layer.attr_get]
                    ·
                      by_cases h7 : name = "gradient"
                      · subst h7
                        cases v <;> simp [Layer.boxAttrSet] at ht <;> subst ht <;>
                          simp [Layer.attr_get]
                      ·
                        by_cases h8 : name = "gradient_color"
                        · subst h8
                          cases v <;> simp [Layer.boxAttrSet] at ht <;> subst ht <;>
                            simp [Layer.attr_get]
                        ·
                          by_cases h9 : name = "gradient_direction"
                          · subst h9
                            cases v <;> simp [Layer.boxAttrSet] at ht <;> subst ht <;>
                              simp [Layer.attr_get]
                          · simp [Layer.boxAttrSet, h1, h2, h3, h4, h5, h6, h7, h8, h9] at ht

/-- Assigning through a method's name stores nothing among the modelled
fields: no setter chain mentions a method name. -/
theorem attr_set_method_none (l : Layer) (name : String) (v : PValue)
    (hm : name ∈ l.methodNames) : Layer.attr_set l name v = none := by
  cases l with
  | mk o b k =>
    cases k with
    | text tf =>
      simp only [Layer.methodNames, baseMethodNames, textMethodNames, List.mem_append,
        List.mem_cons, List.mem_singleton, List.not_mem_nil, or_false] at hm
      rcases hm with (rfl | rfl | rfl | rfl | rfl | rfl | rfl | rfl | rfl | rfl) | rfl <;> rfl
    | image imf =>
      simp only [Layer.methodNames, baseMethodNames, imageMethodNames, List.mem_append,
        List.mem_cons, List.mem_singleton, List.not_mem_nil, or_false] at hm
      rcases hm with (rfl | rfl | rfl | rfl | rfl | rfl | rfl | rfl | rfl | rfl)
        | rfl | rfl | rfl <;> rfl
    | box bf =>
      simp only [Layer.methodNames, baseMethodNames, boxMethodNames, List.mem_append,
        List.mem_cons, List.mem_singleton, List.not_mem_nil, or_false] at hm
      rcases hm with (rfl | rfl | rfl | rfl | rfl | rfl | rfl | rfl | rfl | rfl)
        | rfl | rfl | rfl <;> rfl

/-- C8: `set_property` returns false and leaves the layer unchanged for an
unrecognized (non-dunder) attribute name; for a recognized name — an
instance attribute or a method name, as Python `hasattr` sees both — it
returns true, a representable store of an instance attribute is read back by
`getattr`, a method name is shadowed leaving the modelled state unchanged;
and on an Image layer, setting `width`, `height` or `fit_mode` recomputes
the derived scaled image from the original image, the new target size and
the fit mode. -/
theorem set_property_spec (l : Layer) (name : String) (v : PValue) :
    (isDunderName name = false → name ∉ l.attrNames → name ∉ l.methodNames →
        l.set_property name v = (l, false))
    ∧ (name ∈ l.attrNames ∨ name ∈ l.methodNames → (l.set_property name v).2 = true)
    ∧ (name ∈ l.methodNames → l.set_property name v = (l, true))
    ∧ (∀ l', name ∈ l.attrNames → Layer.attr_set l name v = some l' →
        Layer.attr_get (l.set_property name v).1 name = some v)
    ∧ (l.isImage = true → (name = "width" ∨ name = "height" ∨ name = "fit_mode") →
        ∀ l', Layer.attr_set l name v = some l' →
          (l.set_property name v).1 = Layer.update_scaled l') := by
  refine ⟨?_, ?_, ?_, ?_, ?_⟩
  · intro hdun hn hm
    have hno : ¬(name ∈ l.attrNames ∨ name ∈ l.methodNames) := by
      rintro (h | h)
      · exact hn h
      · exact hm h
    simp [Layer.set_property, hno]
  · intro hmem
    unfold Layer.set_property
    rw [if_pos hmem]
    cases hopt : Layer.attr_set l name v with
    | none => rfl
    | some l2 =>
      show (if l.isImage = true ∧ (name = "width" ∨ name = "height" ∨ name = "fit_mode")
          then (Layer.update_scaled l2, true) else (l2, true)).2 = true
      by_cases hc : l.isImage = true ∧ (name = "width" ∨ name = "height" ∨ name = "fit_mode")
      · rw [if_pos hc]
      · rw [if_neg hc]
  · intro hm
    unfold Layer.set_property
    rw [if_pos (Or.inr hm), attr_set_method_none l name v hm]
  · intro l' hmem hset
    unfold Layer.set_property
    rw [if_pos (Or.inl hmem), hset]
    show Layer.attr_get
        (if l.isImage = true ∧ (name = "width" ∨ name = "height" ∨ name = "fit_mode")
         then (Layer.update_scaled l', true) else (l', true)).1 name = some v
    by_cases hc : l.isImage = true ∧ (name = "width" ∨ name = "height" ∨ name = "fit_mode")
    · rw [if_pos hc]
      exact (attr_get_update_scaled l' name).trans (attr_get_attr_set l l' name v hset)
    · rw [if_neg hc]
      exact attr_get_attr_set l l' name v hset
  · rintro him htri l' hset
    have hmem : name ∈ l.attrNames := by
      cases l with
      | mk o b k =>
        cases k with
        | text tf => simp [Layer.isImage] at him
        | box bf => simp [Layer.isImage] at him
        | image imf =>
          rcases htri with rfl | rfl | rfl <;>
            simp [Layer.attrNames, baseAttrNames, imageAttrNames]
    unfold Layer.set_property
    rw [if_pos (Or.inl hmem), hset]
    show (if l.isImage = true ∧ (name = "width" ∨ name = "height" ∨ name = "fit_mode")
        then (Layer.update_scaled l', true) else (l', true)).1 = Layer.update_scaled l'
    rw [if_pos ⟨him, htri⟩]

set_option maxHeartbeats 200000

/-- Witness for C8 on a fresh image layer: the unknown name `nope` is
rejected without effect, the method name `load_image` is accepted with the
modelled state unchanged, `width` is stored and read back. -/
theorem set_property_spec_witness :
    (Layer.set_property (Layer.mkImage fsNone 0 "image_1" "" 0 5) "nope" (.pnum 1)
        = (Layer.mkImage fsNone 0 "image_1" "" 0 5, false))
    ∧ (Layer.set_property (Layer.mkImage fsNone 0 "image_1" "" 0 5) "load_image" (.pnum 1)
        = (Layer.mkImage fsNone 0 "image_1" "" 0 5, true))
    ∧ ((Layer.set_property (Layer.mkImage fsNone 0 "image_1" "" 0 5) "width" (.pnum 300)).2
        = true)
    ∧ (Layer.attr_get
        (Layer.set_property (Layer.mkImage fsNone 0 "image_1" "" 0 5) "width" (.pnum 300)).1
        "width" = some (.pnum 300)) := by
  have h1 := set_property_spec (Layer.mkImage fsNone 0 "image_1" "" 0 5) "nope" (.pnum 1)
  have h2 := set_property_spec (Layer.mkImage fsNone 0 "image_1" "" 0 5) "load_image" (.pnum 1)
  have h3 := set_property_spec (Layer.mkImage fsNone 0 "image_1" "" 0 5) "width" (.pnum 300)
  exact ⟨h1.1 (by decide) (by decide) (by decide), h2.2.2.1 (by decide),
    h3.2.1 (Or.inl (by decide)), h3.2.2.2.1 _ (by decide) rfl⟩

/-! ## Machinery for `add_sequential_images` (C3, C4) -/

theorem update_scaled_isImage (l : Layer) : (Layer.update_scaled l).isImage = l.isImage := by
  cases l with
  | mk o b k => cases k <;> rfl

theorem update_scaled_isText (l : Layer) : (Layer.update_scaled l).isText = l.isText := by
  cases l with
  | mk o b k => cases k <;> rfl

theorem load_image_base (fs : Filesystem) (l : Layer) (p : String) :
    (Layer.load_image fs l p).base = l.base := by
  cases l with
  | mk o b k =>
    cases k with
    | image imf =>
      unfold Layer.load_image
      cases fs p with
      | some d =>
        cases d with
        | mk ow oh => rw [update_scaled_base]
      | none => rfl
    | text tf => rfl
    | box bf => rfl

theorem load_image_oid (fs : Filesystem) (l : Layer) (p : String) :
    (Layer.load_image fs l p).oid = l.oid := by
  cases l with
  | mk o b k =>
    cases k with
    | image imf =>
      unfold Layer.load_image
      cases fs p with
      | some d =>
        cases d with
        | mk ow oh => rw [update_scaled_oid]
      | none => rfl
    | text tf => rfl
    | box bf => rfl

theorem load_image_isImage (fs : Filesystem) (l : Layer) (p : String) :
    (Layer.load_image fs l p).isImage = l.isImage := by
  cases l with
  | mk o b k =>
    cases k with
    | image imf =>
      unfold Layer.load_image
      cases fs p with
      | some d =>
        cases d with
        | mk ow oh =>
          rw [update_scaled_isImage]
          rfl
      | none => rfl
    | text tf => rfl
    | box bf => rfl

theorem load_image_isText (fs : Filesystem) (l : Layer) (p : String) :
    (Layer.load_image fs l p).isText = l.isText := by
  cases l with
  | mk o b k =>
    cases k with
    | image imf =>
      unfold Layer.load_image
      cases fs p with
      | some d =>
        cases d with
        | mk ow oh =>
          rw [update_scaled_isText]
          rfl
      | none => rfl
    | text tf => rfl
    | box bf => rfl

theorem mkImage_oid (fs : Filesystem) (o : ℕ) (lid p : String) (st en : ℚ) :
    (Layer.mkImage fs o lid p st en).oid = o := by
  unfold Layer.mkImage
  split
  · rw [load_image_oid]
  · rfl

theorem mkImage_base (fs : Filesystem) (o : ℕ) (lid p : String) (st en : ℚ) :
    (Layer.mkImage fs o lid p st en).base = Layer.baseDefaults lid st en := by
  unfold Layer.mkImage
  split
  · rw [load_image_base]
  · rfl

theorem mkImage_isImage (fs : Filesystem) (o : ℕ) (lid p : String) (st en : ℚ) :
    (Layer.mkImage fs o lid p st en).isImage = true := by
  unfold Layer.mkImage
  split
  · rw [load_image_isImage]
    rfl
  · rfl

theorem mkImage_isText (fs : Filesystem) (o : ℕ) (lid p : String) (st en : ℚ) :
    (Layer.mkImage fs o lid p st en).isText = false := by
  unfold Layer.mkImage
  split
  · rw [load_image_isText]
    rfl
  · rfl

theorem setGroup_oid (gid : String) (l : Layer) : (setGroup gid l).oid = l.oid := by
  cases l with
  | mk o b k => cases k <;> rfl

theorem setGroup_base (gid : String) (l : Layer) : (setGroup gid l).base = l.base := by
  cases l with
  | mk o b k => cases k <;> rfl

theorem setGroup_isImage (gid : String) (l : Layer) : (setGroup gid l).isImage = l.isImage := by
  cases l with
  | mk o b k => cases k <;> rfl

theorem setGroup_isText (gid : String) (l : Layer) : (setGroup gid l).isText = l.isText := by
  cases l with
  | mk o b k => cases k <;> rfl

theorem copyFrom_oid (base l : Layer) : (copyFrom base l).oid = l.oid := by
  cases l with
  | mk o b k =>
    cases base with
    | mk o2 b2 k2 =>
      cases k <;> cases k2 <;>
        simp [copyFrom, Layer.set_position, Layer.set_size, update_scaled_oid]

theorem insertByZ_perm (a : Layer) : ∀ ls : List Layer, (insertByZ a ls).Perm (a :: ls)
  | [] => List.Perm.refl _
  | b :: rest => by
    unfold insertByZ
    split
    · exact ((insertByZ_perm a rest).cons b).trans (List.Perm.swap a b rest)
    · exact List.Perm.refl _

theorem sortByZ_perm : ∀ ls : List Layer, (sortByZ ls).Perm ls
  | [] => List.Perm.refl _
  | a :: rest => (insertByZ_perm a (sortByZ rest)).trans ((sortByZ_perm rest).cons a)

theorem updateOid_skip (o : ℕ) (f : Layer → Layer) :
    ∀ ls : List Layer, (∀ l ∈ ls, l.oid ≠ o) → updateOid o f ls = ls := by
  intro ls
  induction ls with
  | nil => intro _; rfl
  | cons a rest ih =>
    intro h
    have ha : ¬ (a.oid == o) = true := by
      simpa using h a (List.mem_cons_self a rest)
    show (if a.oid == o then f a else a) :: updateOid o f rest = a :: rest
    rw [if_neg ha, ih fun l hl => h l (List.mem_cons_of_mem a hl)]

theorem mem_updateOid_of_ne (o : ℕ) (f : Layer → Layer) (l : Layer) (ls : List Layer)
    (hl : l ∈ ls) (hne : l.oid ≠ o) : l ∈ updateOid o f ls := by
  have : (if l.oid == o then f l else l) = l := by
    rw [if_neg (by simpa using hne)]
  exact this ▸ List.mem_map_of_mem _ hl

theorem updateOid_map_oid (o : ℕ) (f : Layer → Layer) (hf : ∀ l, (f l).oid = l.oid)
    (ls : List Layer) : (updateOid o f ls).map Layer.oid = ls.map Layer.oid := by
  unfold updateOid
  rw [List.map_map]
  apply List.map_congr_left
  intro a _
  show (if a.oid == o then f a else a).oid = a.oid
  split
  · exact hf a
  · rfl

theorem foldl_updateOid_mem (f : Layer → Layer) :
    ∀ (os : List ℕ) (ls : List Layer) (l : Layer), l ∈ ls → l.oid ∉ os →
      l ∈ os.foldl (fun acc o => updateOid o f acc) ls
  | [], ls, l, hl, _ => hl
  | o :: rest, ls, l, hl, hno => by
    simp only [List.foldl_cons]
    refine foldl_updateOid_mem f rest _ l ?_ ?_
    · exact mem_updateOid_of_ne o f l ls hl fun he => hno (he ▸ List.mem_cons_self o rest)
    · exact fun hr => hno (List.mem_cons_of_mem o hr)

theorem foldl_updateOid_map_oid (f : Layer → Layer) (hf : ∀ l, (f l).oid = l.oid) :
    ∀ (os : List ℕ) (ls : List Layer),
      ((os.foldl (fun acc o => updateOid o f acc) ls).map Layer.oid) = ls.map Layer.oid
  | [], ls => rfl
  | o :: rest, ls => by
    simp only [List.foldl_cons]
    rw [foldl_updateOid_map_oid f hf rest _, updateOid_map_oid o f hf]

theorem copyStep_next_oid (t : TimelineManager) (os : List ℕ) :
    (TimelineManager.copyStep t os).next_oid = t.next_oid := by
  unfold TimelineManager.copyStep
  cases os with
  | nil => rfl
  | cons o0 rest =>
    dsimp only
    split
    · rfl
    · split <;> rfl

theorem copyStep_total (t : TimelineManager) (os : List ℕ) :
    (TimelineManager.copyStep t os).total_duration = t.total_duration := by
  unfold TimelineManager.copyStep
  cases os with
  | nil => rfl
  | cons o0 rest =>
    dsimp only
    split
    · rfl
    · split <;> rfl

theorem copyStep_mem (t : TimelineManager) (os : List ℕ) (l : Layer)
    (hl : l ∈ t.layers) (hno : l.oid ∉ os.tail) :
    l ∈ (TimelineManager.copyStep t os).layers := by
  unfold TimelineManager.copyStep
  cases os with
  | nil => exact hl
  | cons o0 rest =>
    dsimp only
    split
    · exact hl
    · split
      · exact foldl_updateOid_mem _ rest t.layers l hl hno
      · exact hl

theorem copyStep_map_oid (t : TimelineManager) (os : List ℕ) :
    (TimelineManager.copyStep t os).layers.map Layer.oid = t.layers.map Layer.oid := by
  unfold TimelineManager.copyStep
  cases os with
  | nil => rfl
  | cons o0 rest =>
    dsimp only
    split
    · rfl
    · split
      · exact foldl_updateOid_map_oid _ (copyFrom_oid _) rest t.layers
      · rfl

theorem findOid_eq_some (ls : List Layer) (l : Layer)
    (hnd : (ls.map Layer.oid).Nodup) (hl : l ∈ ls) : findOid ls l.oid = some l := by
  induction ls with
  | nil => cases hl
  | cons a rest ih =>
    rcases List.mem_cons.mp hl with h | h
    · subst h
      unfold findOid
      simp [List.find?]
    · have hne : a.oid ≠ l.oid := by
        intro he
        have : a.oid ∈ rest.map Layer.oid := he ▸ List.mem_map_of_mem Layer.oid h
        exact (List.nodup_cons.mp hnd).1 this
      unfold findOid at *
      rw [List.find?_cons_of_neg _ (by simpa using hne)]
      exact ih (List.nodup_cons.mp hnd).2 h

theorem update_sort_append_perm (g : Layer → Layer) (ls : List Layer) (lz : Layer)
    (h : ∀ l ∈ ls, l.oid ≠ lz.oid) :
    (updateOid lz.oid g (sortByZ (ls ++ [lz]))).Perm (ls ++ [g lz]) := by
  have h1 : (sortByZ (ls ++ [lz])).Perm (ls ++ [lz]) := sortByZ_perm _
  have h2 := h1.map fun l => if l.oid == lz.oid then g l else l
  have h3 : updateOid lz.oid g (ls ++ [lz]) = ls ++ [g lz] := by
    show List.map _ (ls ++ [lz]) = ls ++ [g lz]
    rw [List.map_append]
    congr 1
    · exact updateOid_skip lz.oid g ls h
    · show [if lz.oid == lz.oid then g lz else lz] = [g lz]
      simp
  exact h3 ▸ h2

theorem addSeqLoop_spec (fs : Filesystem) (gid : String) (x y w h dur cs : ℚ) :
    ∀ (paths : List String) (idx : ℕ) (t : TimelineManager), t.WF →
      (TimelineManager.addSeqLoop fs gid x y w h dur cs paths idx t).1.next_oid
          = t.next_oid + paths.length
      ∧ (TimelineManager.addSeqLoop fs gid x y w h dur cs paths idx t).2
          = List.range' t.next_oid paths.length
      ∧ (TimelineManager.addSeqLoop fs gid x y w h dur cs paths idx t).1.WF
      ∧ (TimelineManager.addSeqLoop fs gid x y w h dur cs paths idx t).1.total_duration
          = t.total_duration
      ∧ (∀ l ∈ t.layers,
          l ∈ (TimelineManager.addSeqLoop fs gid x y w h dur cs paths idx t).1.layers)
      ∧ (paths ≠ [] →
          ∃ l0 ∈ (TimelineManager.addSeqLoop fs gid x y w h dur cs paths idx t).1.layers,
            l0.oid = t.next_oid ∧ l0.isImage = true ∧ l0.isText = false
            ∧ l0.base.start_time = cs + (idx : ℚ) * dur
            ∧ l0.base.end_time = cs + (idx : ℚ) * dur + dur) := by
  intro paths
  induction paths with
  | nil =>
    intro idx t hWF
    exact ⟨rfl, rfl, hWF, rfl, fun l hl => hl, fun hne => absurd rfl hne⟩
  | cons path rest ih =>
    intro idx t hWF
    obtain ⟨hnd, hbound⟩ := hWF
    have key : TimelineManager.addSeqLoop fs gid x y w h dur cs (path :: rest) idx t
        = ((TimelineManager.addSeqLoop fs gid x y w h dur cs rest (idx + 1) ({ t with
          layers := updateOid t.next_oid (fun l => Layer.set_size (Layer.set_position (setGroup gid l) x y) w h) (sortByZ (t.layers ++ [({ Layer.mkImage fs t.next_oid ("image_" ++ toString (t.layers.length + 1)) path
            (cs + (idx : ℚ) * dur) (cs + (idx : ℚ) * dur + dur) with
          base := { (Layer.mkImage fs t.next_oid ("image_" ++ toString (t.layers.length + 1)) path
            (cs + (idx : ℚ) * dur) (cs + (idx : ℚ) * dur + dur)).base with
            z_index := (t.layers.length : ℚ) } } : Layer)])),
          next_oid := t.next_oid + 1 } : TimelineManager)).1,
           t.next_oid ::
             (TimelineManager.addSeqLoop fs gid x y w h dur cs rest (idx + 1) ({ t with
          layers := updateOid t.next_oid (fun l => Layer.set_size (Layer.set_position (setGroup gid l) x y) w h) (sortByZ (t.layers ++ [({ Layer.mkImage fs t.next_oid ("image_" ++ toString (t.layers.length + 1)) path
            (cs + (idx : ℚ) * dur) (cs + (idx : ℚ) * dur + dur) with
          base := { (Layer.mkImage fs t.next_oid ("image_" ++ toString (t.layers.length + 1)) path
            (cs + (idx : ℚ) * dur) (cs + (idx : ℚ) * dur + dur)).base with
            z_index := (t.layers.length : ℚ) } } : Layer)])),
          next_oid := t.next_oid + 1 } : TimelineManager)).2) := rfl
    have hLZoid : ({ Layer.mkImage fs t.next_oid ("image_" ++ toString (t.layers.length + 1)) path
            (cs + (idx : ℚ) * dur) (cs + (idx : ℚ) * dur + dur) with
          base := { (Layer.mkImage fs t.next_oid ("image_" ++ toString (t.layers.length + 1)) path
            (cs + (idx : ℚ) * dur) (cs + (idx : ℚ) * dur + dur)).base with
            z_index := (t.layers.length : ℚ) } } : Layer).oid = t.next_oid := mkImage_oid fs _ _ _ _ _
    have hLZstart : ({ Layer.mkImage fs t.next_oid ("image_" ++ toString (t.layers.length + 1)) path
            (cs + (idx : ℚ) * dur) (cs + (idx : ℚ) * dur + dur) with
          base := { (Layer.mkImage fs t.next_oid ("image_" ++ toString (t.layers.length + 1)) path
            (cs + (idx : ℚ) * dur) (cs + (idx : ℚ) * dur + dur)).base with
            z_index := (t.layers.length : ℚ) } } : Layer).base.start_time = cs + (idx : ℚ) * dur := by
      show (Layer.mkImage fs t.next_oid _ path _ _).base.start_time = _
      rw [mkImage_base]
      rfl
    have hLZend : ({ Layer.mkImage fs t.next_oid ("image_" ++ toString (t.layers.length + 1)) path
            (cs + (idx : ℚ) * dur) (cs + (idx : ℚ) * dur + dur) with
          base := { (Layer.mkImage fs t.next_oid ("image_" ++ toString (t.layers.length + 1)) path
            (cs + (idx : ℚ) * dur) (cs + (idx : ℚ) * dur + dur)).base with
            z_index := (t.layers.length : ℚ) } } : Layer).base.end_time = cs + (idx : ℚ) * dur + dur := by
      show (Layer.mkImage fs t.next_oid _ path _ _).base.end_time = _
      rw [mkImage_base]
      rfl
    have hLZimg : ({ Layer.mkImage fs t.next_oid ("image_" ++ toString (t.layers.length + 1)) path
            (cs + (idx : ℚ) * dur) (cs + (idx : ℚ) * dur + dur) with
          base := { (Layer.mkImage fs t.next_oid ("image_" ++ toString (t.layers.length + 1)) path
            (cs + (idx : ℚ) * dur) (cs + (idx : ℚ) * dur + dur)).base with
            z_index := (t.layers.length : ℚ) } } : Layer).isImage = true := mkImage_isImage fs _ _ _ _ _
    have hLZtext : ({ Layer.mkImage fs t.next_oid ("image_" ++ toString (t.layers.length + 1)) path
            (cs + (idx : ℚ) * dur) (cs + (idx : ℚ) * dur + dur) with
          base := { (Layer.mkImage fs t.next_oid ("image_" ++ toString (t.layers.length + 1)) path
            (cs + (idx : ℚ) * dur) (cs + (idx : ℚ) * dur + dur)).base with
            z_index := (t.layers.length : ℚ) } } : Layer).isText = false := mkImage_isText fs _ _ _ _ _
    have hGoid : ∀ l : Layer, ((fun l => Layer.set_size (Layer.set_position (setGroup gid l) x y) w h) l).oid = l.oid := fun l => setGroup_oid gid l
    have hGbase : ∀ l : Layer,
        ((fun l => Layer.set_size (Layer.set_position (setGroup gid l) x y) w h) l).base.start_time = l.base.start_time
        ∧ ((fun l => Layer.set_size (Layer.set_position (setGroup gid l) x y) w h) l).base.end_time = l.base.end_time := by
      intro l
      constructor
      · show (setGroup gid l).base.start_time = l.base.start_time
        rw [setGroup_base]
      · show (setGroup gid l).base.end_time = l.base.end_time
        rw [setGroup_base]
    have hGimg : ∀ l : Layer, ((fun l => Layer.set_size (Layer.set_position (setGroup gid l) x y) w h) l).isImage = l.isImage := fun l => setGroup_isImage gid l
    have hGtext : ∀ l : Layer, ((fun l => Layer.set_size (Layer.set_position (setGroup gid l) x y) w h) l).isText = l.isText := fun l => setGroup_isText gid l
    have hperm : (({ t with
          layers := updateOid t.next_oid (fun l => Layer.set_size (Layer.set_position (setGroup gid l) x y) w h) (sortByZ (t.layers ++ [({ Layer.mkImage fs t.next_oid ("image_" ++ toString (t.layers.length + 1)) path
            (cs + (idx : ℚ) * dur) (cs + (idx : ℚ) * dur + dur) with
          base := { (Layer.mkImage fs t.next_oid ("image_" ++ toString (t.layers.length + 1)) path
            (cs + (idx : ℚ) * dur) (cs + (idx : ℚ) * dur + dur)).base with
            z_index := (t.layers.length : ℚ) } } : Layer)])),
          next_oid := t.next_oid + 1 } : TimelineManager)).layers.Perm (t.layers ++ [(fun l => Layer.set_size (Layer.set_position (setGroup gid l) x y) w h) ({ Layer.mkImage fs t.next_oid ("image_" ++ toString (t.layers.length + 1)) path
            (cs + (idx : ℚ) * dur) (cs + (idx : ℚ) * dur + dur) with
          base := { (Layer.mkImage fs t.next_oid ("image_" ++ toString (t.layers.length + 1)) path
            (cs + (idx : ℚ) * dur) (cs + (idx : ℚ) * dur + dur)).base with
            z_index := (t.layers.length : ℚ) } } : Layer)]) := by
      have hne : ∀ l ∈ t.layers, l.oid ≠ ({ Layer.mkImage fs t.next_oid ("image_" ++ toString (t.layers.length + 1)) path
            (cs + (idx : ℚ) * dur) (cs + (idx : ℚ) * dur + dur) with
          base := { (Layer.mkImage fs t.next_oid ("image_" ++ toString (t.layers.length + 1)) path
            (cs + (idx : ℚ) * dur) (cs + (idx : ℚ) * dur + dur)).base with
            z_index := (t.layers.length : ℚ) } } : Layer).oid := fun l hl => by
        rw [hLZoid]
        exact (hbound l hl).ne
      have hp := update_sort_append_perm (fun l => Layer.set_size (Layer.set_position (setGroup gid l) x y) w h) t.layers ({ Layer.mkImage fs t.next_oid ("image_" ++ toString (t.layers.length + 1)) path
            (cs + (idx : ℚ) * dur) (cs + (idx : ℚ) * dur + dur) with
          base := { (Layer.mkImage fs t.next_oid ("image_" ++ toString (t.layers.length + 1)) path
            (cs + (idx : ℚ) * dur) (cs + (idx : ℚ) * dur + dur)).base with
            z_index := (t.layers.length : ℚ) } } : Layer) hne
      rw [hLZoid] at hp
      exact hp
    have hWF2 : (({ t with
          layers := updateOid t.next_oid (fun l => Layer.set_size (Layer.set_position (setGroup gid l) x y) w h) (sortByZ (t.layers ++ [({ Layer.mkImage fs t.next_oid ("image_" ++ toString (t.layers.length + 1)) path
            (cs + (idx : ℚ) * dur) (cs + (idx : ℚ) * dur + dur) with
          base := { (Layer.mkImage fs t.next_oid ("image_" ++ toString (t.layers.length + 1)) path
            (cs + (idx : ℚ) * dur) (cs + (idx : ℚ) * dur + dur)).base with
            z_index := (t.layers.length : ℚ) } } : Layer)])),
          next_oid := t.next_oid + 1 } : TimelineManager)).WF := by
      constructor
      · have hmap := hperm.map Layer.oid
        refine (hmap.nodup_iff).mpr ?_
        rw [List.map_append]
        rw [List.nodup_append]
        refine ⟨hnd, List.nodup_singleton _, ?_⟩
        intro a ha hb
        rcases List.mem_map.mp ha with ⟨l, hl, hla⟩
        have hb2 : a = ((fun l => Layer.set_size (Layer.set_position (setGroup gid l) x y) w h) ({ Layer.mkImage fs t.next_oid ("image_" ++ toString (t.layers.length + 1)) path
            (cs + (idx : ℚ) * dur) (cs + (idx : ℚ) * dur + dur) with
          base := { (Layer.mkImage fs t.next_oid ("image_" ++ toString (t.layers.length + 1)) path
            (cs + (idx : ℚ) * dur) (cs + (idx : ℚ) * dur + dur)).base with
            z_index := (t.layers.length : ℚ) } } : Layer)).oid := by
          simpa using hb
        rw [hb2, hGoid, hLZoid] at hla
        exact absurd (hla ▸ hbound l hl) (lt_irrefl _)
      · intro l hl
        have hl2 := (hperm.mem_iff).mp hl
        show l.oid < t.next_oid + 1
        rcases List.mem_append.mp hl2 with h1 | h1
        · exact Nat.lt_succ_of_lt (hbound l h1)
        · have : l = (fun l => Layer.set_size (Layer.set_position (setGroup gid l) x y) w h) ({ Layer.mkImage fs t.next_oid ("image_" ++ toString (t.layers.length + 1)) path
            (cs + (idx : ℚ) * dur) (cs + (idx : ℚ) * dur + dur) with
          base := { (Layer.mkImage fs t.next_oid ("image_" ++ toString (t.layers.length + 1)) path
            (cs + (idx : ℚ) * dur) (cs + (idx : ℚ) * dur + dur)).base with
            z_index := (t.layers.length : ℚ) } } : Layer) := by simpa using h1
          rw [this, hGoid, hLZoid]
          exact Nat.lt_succ_self _
    obtain ⟨r1, r2, r3, r4, r5, r6⟩ := ih (idx + 1) ({ t with
          layers := updateOid t.next_oid (fun l => Layer.set_size (Layer.set_position (setGroup gid l) x y) w h) (sortByZ (t.layers ++ [({ Layer.mkImage fs t.next_oid ("image_" ++ toString (t.layers.length + 1)) path
            (cs + (idx : ℚ) * dur) (cs + (idx : ℚ) * dur + dur) with
          base := { (Layer.mkImage fs t.next_oid ("image_" ++ toString (t.layers.length + 1)) path
            (cs + (idx : ℚ) * dur) (cs + (idx : ℚ) * dur + dur)).base with
            z_index := (t.layers.length : ℚ) } } : Layer)])),
          next_oid := t.next_oid + 1 } : TimelineManager) hWF2
    rw [key]
    refine ⟨?_, ?_, r3, ?_, ?_, ?_⟩
    · show (TimelineManager.addSeqLoop fs gid x y w h dur cs rest (idx + 1) ({ t with
          layers := updateOid t.next_oid (fun l => Layer.set_size (Layer.set_position (setGroup gid l) x y) w h) (sortByZ (t.layers ++ [({ Layer.mkImage fs t.next_oid ("image_" ++ toString (t.layers.length + 1)) path
            (cs + (idx : ℚ) * dur) (cs + (idx : ℚ) * dur + dur) with
          base := { (Layer.mkImage fs t.next_oid ("image_" ++ toString (t.layers.length + 1)) path
            (cs + (idx : ℚ) * dur) (cs + (idx : ℚ) * dur + dur)).base with
            z_index := (t.layers.length : ℚ) } } : Layer)])),
          next_oid := t.next_oid + 1 } : TimelineManager)).1.next_oid
          = t.next_oid + (path :: rest).length
      rw [r1]
      show t.next_oid + 1 + rest.length = t.next_oid + (rest.length + 1)
      omega
    · show t.next_oid ::
          (TimelineManager.addSeqLoop fs gid x y w h dur cs rest (idx + 1) ({ t with
          layers := updateOid t.next_oid (fun l => Layer.set_size (Layer.set_position (setGroup gid l) x y) w h) (sortByZ (t.layers ++ [({ Layer.mkImage fs t.next_oid ("image_" ++ toString (t.layers.length + 1)) path
            (cs + (idx : ℚ) * dur) (cs + (idx : ℚ) * dur + dur) with
          base := { (Layer.mkImage fs t.next_oid ("image_" ++ toString (t.layers.length + 1)) path
            (cs + (idx : ℚ) * dur) (cs + (idx : ℚ) * dur + dur)).base with
            z_index := (t.layers.length : ℚ) } } : Layer)])),
          next_oid := t.next_oid + 1 } : TimelineManager)).2
          = List.range' t.next_oid (path :: rest).length
      rw [r2]
      show t.next_oid :: List.range' (t.next_oid + 1) rest.length
          = List.range' t.next_oid (rest.length + 1)
      rw [List.range'_succ]
    · show (TimelineManager.addSeqLoop fs gid x y w h dur cs rest (idx + 1) ({ t with
          layers := updateOid t.next_oid (fun l => Layer.set_size (Layer.set_position (setGroup gid l) x y) w h) (sortByZ (t.layers ++ [({ Layer.mkImage fs t.next_oid ("image_" ++ toString (t.layers.length + 1)) path
            (cs + (idx : ℚ) * dur) (cs + (idx : ℚ) * dur + dur) with
          base := { (Layer.mkImage fs t.next_oid ("image_" ++ toString (t.layers.length + 1)) path
            (cs + (idx : ℚ) * dur) (cs + (idx : ℚ) * dur + dur)).base with
            z_index := (t.layers.length : ℚ) } } : Layer)])),
          next_oid := t.next_oid + 1 } : TimelineManager)).1.total_duration
          = t.total_duration
      rw [r4]
    · intro l hl
      exact r5 l ((hperm.mem_iff).mpr (List.mem_append_left _ hl))
    · intro _
      refine ⟨(fun l => Layer.set_size (Layer.set_position (setGroup gid l) x y) w h) ({ Layer.mkImage fs t.next_oid ("image_" ++ toString (t.layers.length + 1)) path
            (cs + (idx : ℚ) * dur) (cs + (idx : ℚ) * dur + dur) with
          base := { (Layer.mkImage fs t.next_oid ("image_" ++ toString (t.layers.length + 1)) path
            (cs + (idx : ℚ) * dur) (cs + (idx : ℚ) * dur + dur)).base with
            z_index := (t.layers.length : ℚ) } } : Layer),
        r5 _ ((hperm.mem_iff).mpr (List.mem_append_right _ (List.mem_singleton_self _))),
        ?_, ?_, ?_, ?_, ?_⟩
      · rw [hGoid, hLZoid]
      · rw [hGimg, hLZimg]
      · rw [hGtext, hLZtext]
      · rw [(hGbase _).1, hLZstart]
      · rw [(hGbase _).2, hLZend]

theorem ext_oid_aux (q : ℚ) (u : Layer) :
    (if u.isText then ({ u with base := { u.base with end_time := q } } : Layer) else u).oid
      = u.oid := by
  split <;> rfl

theorem map_ext_oid (q : ℚ) (ls : List Layer) :
    ((ls.map fun u =>
        if u.isText then ({ u with base := { u.base with end_time := q } } : Layer) else u).map
      Layer.oid) = ls.map Layer.oid := by
  rw [List.map_map]
  exact List.map_congr_left fun u _ => ext_oid_aux q u

theorem findOid_ext_map (q : ℚ) (ls : List Layer) (l : Layer)
    (hnd : (ls.map Layer.oid).Nodup) (hmem : l ∈ ls) :
    findOid
        (ls.map fun u =>
          if u.isText then ({ u with base := { u.base with end_time := q } } : Layer) else u)
        l.oid
      = some (if l.isText then ({ l with base := { l.base with end_time := q } } : Layer) else l) := by
  have hm2 : (if l.isText then ({ l with base := { l.base with end_time := q } } : Layer) else l)
      ∈ ls.map (fun u =>
          if u.isText then ({ u with base := { u.base with end_time := q } } : Layer) else u) :=
    List.mem_map.mpr ⟨l, hmem, rfl⟩
  have hnd2 : ((ls.map fun u =>
      if u.isText then ({ u with base := { u.base with end_time := q } } : Layer) else u).map
        Layer.oid).Nodup := by
    rw [map_ext_oid]
    exact hnd
  have h := findOid_eq_some _ _ hnd2 hm2
  rw [ext_oid_aux] at h
  exact h

theorem mem_ext_map_of_nontext (q : ℚ) (ls : List Layer) (l : Layer)
    (hmem : l ∈ ls) (ht : l.isText = false) :
    l ∈ ls.map fun u =>
        if u.isText then ({ u with base := { u.base with end_time := q } } : Layer) else u := by
  refine List.mem_map.mpr ⟨l, hmem, ?_⟩
  rw [ht]
  exact if_neg Bool.false_ne_true

theorem created_head (ls : List Layer) (n : ℕ) (rest : List ℕ) (l0 : Layer)
    (hnd : (ls.map Layer.oid).Nodup) (hmem : l0 ∈ ls) (hoid : l0.oid = n) :
    ((n :: rest).filterMap (findOid ls)).head?.map (fun l => l.base.start_time)
      = some l0.base.start_time := by
  have h := findOid_eq_some ls l0 hnd hmem
  rw [hoid] at h
  rw [List.filterMap_cons, h]
  rfl

set_option maxHeartbeats 1000000

theorem add_seq_master (fs : Filesystem) (hex : String) (t : TimelineManager)
    (paths : List String) (dur : ℚ) (a b c d : Option ℚ) (hWF : t.WF)
    (hnil : paths ≠ []) :
    (∀ l ∈ t.layers,
       findOid (TimelineManager.add_sequential_images fs hex t paths dur a b c d).1.layers l.oid
         = some (if l.isText then
             ({ l with base := { l.base with end_time :=
                 (TimelineManager.add_sequential_images fs hex t paths dur a b c d).1.total_duration } } : Layer)
           else l))
    ∧ ((TimelineManager.created_layers
          (TimelineManager.add_sequential_images fs hex t paths dur a b c d).1
          (TimelineManager.add_sequential_images fs hex t paths dur a b c d).2).head?.map
            (fun l => l.base.start_time)
        = some (if t.layers.isEmpty then 0 else latest_end_nontext t.layers)) := by
  obtain ⟨hnd, hbound⟩ := hWF
  obtain ⟨p0, ps, rfl⟩ : ∃ p0 ps, paths = p0 :: ps := by
    cases paths with
    | nil => exact absurd rfl hnil
    | cons p0 ps => exact ⟨p0, ps, rfl⟩
  obtain ⟨r1, r2, r3, r4, r5, r6⟩ :=
    addSeqLoop_spec fs ("imggrp_" ++ hex) (a.getD 0) (b.getD 120) (c.getD 720) (d.getD 1050)
      dur (if t.layers.isEmpty then 0 else latest_end_nontext t.layers) (p0 :: ps) 0 t ⟨hnd, hbound⟩
  obtain ⟨l0, hl0mem, hl0oid, hl0img, hl0text, hl0start, hl0end⟩ := r6 (by simp)
  set LP := TimelineManager.addSeqLoop fs ("imggrp_" ++ hex) (a.getD 0) (b.getD 120) (c.getD 720)
      (d.getD 1050) dur (if t.layers.isEmpty then 0 else latest_end_nontext t.layers)
      (p0 :: ps) 0 t with hLP
  clear_value LP
  obtain ⟨TL, os⟩ := LP
  dsimp only at r1 r2 r3 r4 r5 hl0mem
  rw [List.length_cons, List.range'_succ] at r2
  subst r2
  simp only [TimelineManager.add_sequential_images, ← hLP, TimelineManager.created_layers,
    TimelineManager.set_total_duration, List.length_cons, List.range'_succ]
  obtain ⟨lastO, hlast⟩ :
      ∃ lo, (t.next_oid :: List.range' (t.next_oid + 1) ps.length).getLast? = some lo := by
    cases hgl : (t.next_oid :: List.range' (t.next_oid + 1) ps.length).getLast? with
    | some lo => exact ⟨lo, rfl⟩
    | none => simp at hgl
  simp only [hlast]
  have hndC : ((TimelineManager.copyStep TL
      (t.next_oid :: List.range' (t.next_oid + 1) ps.length)).layers.map Layer.oid).Nodup := by
    rw [copyStep_map_oid]
    exact r3.1
  constructor
  · intro l hl
    have hno : l.oid ∉ (t.next_oid :: List.range' (t.next_oid + 1) ps.length).tail := by
      intro hm
      have h1 := (List.mem_range'_1.mp hm).1
      have h2 := hbound l hl
      omega
    have hC : l ∈ (TimelineManager.copyStep TL
        (t.next_oid :: List.range' (t.next_oid + 1) ps.length)).layers :=
      copyStep_mem _ _ _ (r5 l hl) hno
    exact findOid_ext_map _ _ l hndC hC
  · have hno0 : l0.oid ∉ (t.next_oid :: List.range' (t.next_oid + 1) ps.length).tail := by
      intro hm
      have h1 := (List.mem_range'_1.mp hm).1
      omega
    have hl0C : l0 ∈ (TimelineManager.copyStep TL
        (t.next_oid :: List.range' (t.next_oid + 1) ps.length)).layers :=
      copyStep_mem _ _ _ hl0mem hno0
    have hl0F := mem_ext_map_of_nontext
      (max 1 (max (TimelineManager.copyStep TL
          (t.next_oid :: List.range' (t.next_oid + 1) ps.length)).total_duration
        (match findOid (TimelineManager.copyStep TL
            (t.next_oid :: List.range' (t.next_oid + 1) ps.length)).layers lastO with
          | some l => l.base.end_time
          | none => 0)))
      _ l0 hl0C hl0text
    have hndF := hndC
    rw [← map_ext_oid (max 1 (max (TimelineManager.copyStep TL
        (t.next_oid :: List.range' (t.next_oid + 1) ps.length)).total_duration
      (match findOid (TimelineManager.copyStep TL
          (t.next_oid :: List.range' (t.next_oid + 1) ps.length)).layers lastO with
        | some l => l.base.end_time
        | none => 0)))] at hndF
    rw [created_head _ t.next_oid _ l0 hndF hl0F hl0oid, hl0start]
    norm_num

/-- C4: after an `add_sequential_images` call that creates at least one layer
(a non-empty path list), on a well-formed timeline, every pre-existing layer
is still found under its object identity: a Text layer reappears with
`end_time` set to the new `total_duration` and every other field — in
particular `start_time` — unchanged, and a non-Text pre-existing layer
reappears entirely unchanged (so its timing is untouched). -/
theorem add_seq_text_extension (fs : Filesystem) (hex : String) (t : TimelineManager)
    (paths : List String) (dur : ℚ) (a b c d : Option ℚ) (hWF : t.WF) (hnil : paths ≠ [])
    (l : Layer) (hl : l ∈ t.layers) :
    findOid (TimelineManager.add_sequential_images fs hex t paths dur a b c d).1.layers l.oid
      = some (if l.isText then
          ({ l with base := { l.base with end_time :=
              (TimelineManager.add_sequential_images fs hex t paths dur a b c d).1.total_duration } } : Layer)
        else l) :=
  (add_seq_master fs hex t paths dur a b c d hWF hnil).1 l hl

/-- Witness for C4: the pre-existing text layer of `seqT0` after adding one
sequential image. -/
theorem add_seq_text_extension_witness :
    findOid (TimelineManager.add_sequential_images fsNone "ab" seqT0 ["p"] 3
        none none none none).1.layers seqL0.oid
      = some (if seqL0.isText then
          ({ seqL0 with base := { seqL0.base with end_time :=
              (TimelineManager.add_sequential_images fsNone "ab" seqT0 ["p"] 3
                none none none none).1.total_duration } } : Layer)
        else seqL0) :=
  add_seq_text_extension fsNone "ab" seqT0 ["p"] 3 none none none none
    (by decide) (by decide) seqL0 (by decide)

/-- C3, counterexample to the final clause: on the non-empty timeline `cexT`,
whose single layer is a non-Text layer with `end_time = -1`, the first created
image starts at `0` and not at the maximum `end_time` among existing non-Text
layers, which is `-1`: the source folds its maximum starting from `0.0`. -/
theorem add_seq_start_counterexample :
    cexT.layers.map (fun l => (l.isText, l.base.end_time)) = [(false, -1)]
    ∧ (TimelineManager.created_layers cexRes.1 cexRes.2).head?.map (fun l => l.base.start_time)
        = some 0
    ∧ (0 : ℚ) ≠ -1 := by
  decide

/-- C3 (amended): `add_sequential_images` with three paths and duration 3 on
the empty initial timeline creates exactly 3 Image layers with start times
`[0, 3, 6]`, end times `[3, 6, 9]`, one shared non-empty group id, and leaves
`total_duration ≥ 9`; and in general, on a well-formed non-empty timeline the
first created image starts at `latest_end_nontext`, i.e. the maximum of `0`
and the `end_time`s of the existing non-Text layers (not the plain maximum of
those `end_time`s). -/
theorem add_seq_sequential_spec :
    (seq3Res.1.layers.length = 3
      ∧ (TimelineManager.created_layers seq3Res.1 seq3Res.2).map Layer.isImage
          = [true, true, true]
      ∧ (TimelineManager.created_layers seq3Res.1 seq3Res.2).map (fun l => l.base.start_time)
          = [0, 3, 6]
      ∧ (TimelineManager.created_layers seq3Res.1 seq3Res.2).map (fun l => l.base.end_time)
          = [3, 6, 9]
      ∧ (TimelineManager.created_layers seq3Res.1 seq3Res.2).map Layer.groupId
          = [some "imggrp_abcd1234", some "imggrp_abcd1234", some "imggrp_abcd1234"]
      ∧ "imggrp_abcd1234" ≠ ""
      ∧ 9 ≤ seq3Res.1.total_duration)
    ∧ ∀ (fs : Filesystem) (hex : String) (t : TimelineManager) (paths : List String)
        (dur : ℚ) (a b c d : Option ℚ), t.WF → paths ≠ [] → t.layers ≠ [] →
        (TimelineManager.created_layers
            (TimelineManager.add_sequential_images fs hex t paths dur a b c d).1
            (TimelineManager.add_sequential_images fs hex t paths dur a b c d).2).head?.map
          (fun l => l.base.start_time)
          = some (latest_end_nontext t.layers) := by
  constructor
  · decide
  · intro fs hex t paths dur a b c d hWF hnil hne
    have h := (add_seq_master fs hex t paths dur a b c d hWF hnil).2
    rw [if_neg (by simpa using hne)] at h
    exact h

/-- Witness for the general clause of the amended C3 at the concrete box
timeline `cexT`. -/
theorem add_seq_sequential_spec_witness :
    (TimelineManager.created_layers cexRes.1 cexRes.2).head?.map (fun l => l.base.start_time)
      = some (latest_end_nontext cexT.layers) :=
  add_seq_sequential_spec.2 fsNone "deadbeef" cexT ["p"] 3 none none none none
    (by decide) (by decide) (by decide)
